import Mathlib

/-
Verification of the reference-key lifecycle, dependency-blocking protocol
and calibration-table transform of the interactive-noisy-simulation
managers, against a shallow embedding of the Python sources
(noise_data_manager.py, noise_creator.py, simulator_manager.py,
core/utils/key_blocker.py, core/instance_managers/helpers/csv_modification.py,
core/data_structures/noise_data_instance.py, utils/validators.py).

Python dicts are modelled as insertion-ordered association lists, pandas
dataframes as lists of rows (each row a mapping from column name to cell),
floats as exact rationals, and raised exceptions as error results.  Manager
methods that catch a validation error, log it and return without mutating
state are modelled as functions returning `Except INSErr SysState`: an error
result means the state is left unchanged, matching the sources, where every
mutation happens after the validation block.
-/

namespace INS

/-! ### Python dictionaries

An insertion-ordered association list, mirroring the semantics of a Python
`dict`: assigning to an existing key updates it in place, assigning to a new
key appends it, `del` removes it, and iteration follows insertion order. -/

abbrev Dict (κ : Type) (α : Type) := List (κ × α)

section DictOps

variable {κ : Type} {α : Type} [DecidableEq κ]

/-- `d[k]` as an optional lookup (first entry with key `k`). -/
def dget : Dict κ α → κ → Option α
  | [], _ => none
  | p :: d, k => if p.1 = k then some p.2 else dget d k

/-- `d[k] = v`: update the entry in place, or append a new one. -/
def dset : Dict κ α → κ → α → Dict κ α
  | [], k, v => [(k, v)]
  | p :: d, k, v => if p.1 = k then (k, v) :: d else p :: dset d k v

/-- `del d[k]`: remove the (first) entry with key `k`. -/
def derase : Dict κ α → κ → Dict κ α
  | [], _ => []
  | p :: d, k => if p.1 = k then d else p :: derase d k

/-- `k in d`. -/
def dmem (d : Dict κ α) (k : κ) : Bool := (dget d k).isSome

/-- The keys of the dictionary, in insertion order. -/
def dkeys (d : Dict κ α) : List κ := d.map Prod.fst

/-- A dictionary is legal when its keys are pairwise distinct; every value
built from the empty dictionary by `dset` and `derase` is. -/
def DLegal (d : Dict κ α) : Prop := (dkeys d).Nodup

theorem dget_set (d : Dict κ α) (k k' : κ) (v : α) :
    dget (dset d k v) k' = if k' = k then some v else dget d k' := by
  induction d with
  | nil =>
    by_cases h : k' = k
    · simp [dset, dget, h]
    · have h' : ¬ k = k' := fun hh => h hh.symm
      simp only [dset, dget, if_neg h', if_neg h]
  | cons p d ih =>
    by_cases h1 : p.1 = k
    · by_cases h2 : k' = k
      · simp only [dset, if_pos h1, dget, if_pos h2.symm, if_pos h2]
      · have h3 : ¬ k = k' := fun hh => h2 hh.symm
        have h4 : ¬ p.1 = k' := h1 ▸ h3
        simp only [dset, if_pos h1, dget, if_neg h3, if_neg h2, if_neg h4]
    · simp only [dset, if_neg h1, dget]
      by_cases h3 : p.1 = k'
      · have h4 : ¬ k' = k := fun hh => h1 (h3.trans hh)
        simp only [if_pos h3, if_neg h4]
      · simp only [if_neg h3, ih]

theorem dget_set_self (d : Dict κ α) (k : κ) (v : α) :
    dget (dset d k v) k = some v := by simp [dget_set]

theorem dget_set_ne (d : Dict κ α) {k k' : κ} (v : α) (h : k' ≠ k) :
    dget (dset d k v) k' = dget d k' := by simp [dget_set, h]

theorem dget_erase_ne (d : Dict κ α) {k k' : κ} (h : k' ≠ k) :
    dget (derase d k) k' = dget d k' := by
  induction d with
  | nil => simp [derase]
  | cons p d ih =>
    by_cases h1 : p.1 = k
    · have h2 : ¬ p.1 = k' := fun hh => h (hh.symm.trans h1)
      simp only [derase, if_pos h1, dget, if_neg h2]
    · simp only [derase, if_neg h1, dget, ih]

theorem derase_sublist (d : Dict κ α) (k : κ) : List.Sublist (derase d k) d := by
  induction d with
  | nil => simp [derase]
  | cons p d ih =>
    by_cases h : p.1 = k
    · simp only [derase, if_pos h]
      exact List.sublist_cons_self p d
    · simpa [derase, h] using List.Sublist.cons₂ p ih

theorem mem_derase {d : Dict κ α} {k : κ} {p : κ × α} (h : p ∈ derase d k) :
    p ∈ d := (derase_sublist d k).mem h

theorem mem_dset {d : Dict κ α} {k : κ} {v : α} {p : κ × α}
    (h : p ∈ dset d k v) : p = (k, v) ∨ p ∈ d := by
  induction d with
  | nil => simpa [dset] using h
  | cons q d ih =>
    by_cases h1 : q.1 = k
    · rcases by simpa [dset, h1] using h with h2 | h2
      · exact Or.inl h2
      · exact Or.inr (List.mem_cons_of_mem q h2)
    · rcases by simpa [dset, h1] using h with h2 | h2
      · exact Or.inr (by simp [h2])
      · rcases ih h2 with h3 | h3
        · exact Or.inl h3
        · exact Or.inr (List.mem_cons_of_mem q h3)

theorem dget_eq_some_mem {d : Dict κ α} {k : κ} {v : α}
    (h : dget d k = some v) : (k, v) ∈ d := by
  induction d with
  | nil => simp [dget] at h
  | cons p d ih =>
    by_cases h1 : p.1 = k
    · simp only [dget, if_pos h1] at h
      obtain ⟨a, b⟩ := p
      simp only at h1
      subst h1
      simp only [Option.some.injEq] at h
      subst h
      exact List.mem_cons_self _ _
    · simp only [dget, if_neg h1] at h
      exact List.mem_cons_of_mem p (ih h)

theorem dget_erase_of_none (d : Dict κ α) (k k' : κ) (h : dget d k = none) :
    dget (derase d k') k = none := by
  induction d with
  | nil => simp [derase, dget]
  | cons p d ih =>
    by_cases h1 : p.1 = k
    · simp [dget, h1] at h
    · simp only [dget, if_neg h1] at h
      by_cases h2 : p.1 = k' <;> simp [derase, dget, h1, h2, ih h, h]

theorem derase_dset_of_none (d : Dict κ α) (k : κ) (v : α)
    (h : dget d k = none) : derase (dset d k v) k = d := by
  induction d with
  | nil => simp [dset, derase]
  | cons p d ih =>
    by_cases h1 : p.1 = k
    · simp [dget, h1] at h
    · simp only [dget, if_neg h1] at h
      simp [dset, derase, h1, ih h]

theorem derase_dset (d : Dict κ α) (k : κ) (v : α) :
    derase (dset d k v) k = derase d k := by
  induction d with
  | nil => simp [dset, derase]
  | cons p d ih =>
    by_cases h1 : p.1 = k
    · simp [dset, derase, h1]
    · simp [dset, derase, h1, ih]

theorem dget_of_not_mem_keys {d : Dict κ α} {k : κ} (h : k ∉ dkeys d) :
    dget d k = none := by
  induction d with
  | nil => simp [dget]
  | cons p d ih =>
    simp only [dkeys, List.map_cons, List.mem_cons, not_or] at h
    have h1 : ¬ p.1 = k := fun hh => h.1 hh.symm
    simp only [dget, if_neg h1]
    exact ih h.2

theorem dkeys_dset_none (d : Dict κ α) (k : κ) (v : α)
    (h : dget d k = none) : dkeys (dset d k v) = dkeys d ++ [k] := by
  induction d with
  | nil => simp [dset, dkeys]
  | cons p d ih =>
    by_cases h1 : p.1 = k
    · simp [dget, h1] at h
    · simp only [dget, if_neg h1] at h
      have ih' := ih h
      simp only [dset, if_neg h1, dkeys, List.map_cons] at ih' ⊢
      rw [ih']
      simp

theorem dkeys_dset_some (d : Dict κ α) (k : κ) (v : α)
    (h : (dget d k).isSome) : dkeys (dset d k v) = dkeys d := by
  induction d with
  | nil => simp [dget] at h
  | cons p d ih =>
    by_cases h1 : p.1 = k
    · simp [dset, dkeys, h1]
    · simp only [dget, if_neg h1] at h
      have ih' := ih h
      simp only [dset, if_neg h1, dkeys, List.map_cons] at ih' ⊢
      rw [ih']

theorem not_mem_keys_of_dget_none {d : Dict κ α} {k : κ}
    (h : dget d k = none) : k ∉ dkeys d := by
  induction d with
  | nil => simp [dkeys]
  | cons p d ih =>
    by_cases h1 : p.1 = k
    · simp [dget, h1] at h
    · simp only [dget, if_neg h1] at h
      simp only [dkeys, List.map_cons, List.mem_cons, not_or]
      exact ⟨fun hh => h1 hh.symm, ih h⟩

theorem dlegal_dset {d : Dict κ α} (k : κ) (v : α) (h : DLegal d) :
    DLegal (dset d k v) := by
  unfold DLegal
  cases hg : dget d k with
  | none =>
    rw [dkeys_dset_none d k v hg]
    refine List.Nodup.append h (by simp) ?_
    intro a ha hb
    simp only [List.mem_singleton] at hb
    subst hb
    exact not_mem_keys_of_dget_none hg ha
  | some w =>
    rw [dkeys_dset_some d k v (by simp [hg])]
    exact h

theorem dlegal_derase {d : Dict κ α} (k : κ) (h : DLegal d) :
    DLegal (derase d k) :=
  List.Nodup.sublist ((derase_sublist d k).map Prod.fst) h

theorem dget_erase_self {d : Dict κ α} (k : κ) (h : DLegal d) :
    dget (derase d k) k = none := by
  induction d with
  | nil => simp [derase, dget]
  | cons p d ih =>
    have hkeys : p.1 ∉ dkeys d ∧ (dkeys d).Nodup := by
      simpa [DLegal, dkeys, List.nodup_cons] using h
    by_cases h1 : p.1 = k
    · subst h1
      simpa [derase] using dget_of_not_mem_keys hkeys.1
    · simp only [derase, if_neg h1, dget, if_neg h1]
      exact ih hkeys.2

end DictOps

/-! ### Reference-key normalization (`utils/validators.py`)

`validate_instance_name` rewrites every space in a user-supplied reference
key to an underscore (`re.sub(r' ', '_', key)`) when the key contains at
least one space, and returns the key unchanged otherwise. -/

/-- `" " in key`. -/
def has_space (s : String) : Bool := s.data.any (fun c => c = ' ')

/-- `validate_instance_name` from `utils/validators.py`. -/
def validate_instance_name (new_instance_key : String) : String :=
  if has_space new_instance_key then
    String.mk (new_instance_key.data.map (fun c => if c = ' ' then '_' else c))
  else new_instance_key

theorem validate_instance_name_no_space (k : String) :
    has_space (validate_instance_name k) = false := by
  unfold validate_instance_name
  cases h : has_space k with
  | false => simp [h]
  | true =>
    simp only [h, if_true]
    unfold has_space
    simp only [List.any_map, List.any_eq_false, Function.comp]
    intro c _
    by_cases hc : c = ' ' <;> simp [hc]

theorem validate_instance_name_eq_of_no_space {k : String}
    (h : has_space k = false) : validate_instance_name k = k := by
  simp [validate_instance_name, h]

/-! ### Exact numeric values

Python float values are modelled as exact rationals, carried as normalized
integer fractions (numerator coprime to a positive denominator), so that two
values are equal exactly when they denote the same rational. -/

structure PyFloat where
  num : Int
  den : Nat
  deriving DecidableEq

/-- The normalized fraction `n / d` (for `d > 0`). -/
def pfMk (n : Int) (d : Nat) : PyFloat :=
  let g := Nat.gcd n.natAbs d
  if g = 0 then ⟨0, 1⟩ else ⟨n / (g : Int), d / g⟩

/-- A whole number as a value. -/
def pfNat (n : Nat) : PyFloat := ⟨n, 1⟩

def pfMul (a b : PyFloat) : PyFloat := pfMk (a.num * b.num) (a.den * b.den)

def pfNeg (a : PyFloat) : PyFloat := ⟨-a.num, a.den⟩

/-- Value comparison by cross-multiplication (denominators are positive). -/
def pfLe (a b : PyFloat) : Bool := a.num * (b.den : Int) ≤ b.num * (a.den : Int)

/-- Python's `min(x, y)`: `x` when `x <= y`, else `y`. -/
def pfMin (a b : PyFloat) : PyFloat := if pfLe a b then a else b

/-- `1e-6`: microseconds to seconds. -/
def microFactor : PyFloat := ⟨1, 1000000⟩

/-- `1e-9`: nanoseconds to seconds. -/
def nanoFactor : PyFloat := ⟨1, 1000000000⟩

/-! ### Cells, rows and dataframes

A pandas dataframe is modelled as a list of named columns together with one
row per qubit; each row maps column names to cells.  A cell is either
missing (`NaN`), a raw string, a numeric value, a parsed multi-value mapping
`target qubit ↦ value`, or a list of qubit indices (the `neighboring_qubits`
column). -/

inductive Cell where
  | na : Cell
  | str : String → Cell
  | num : PyFloat → Cell
  | mapping : Dict Int PyFloat → Cell
  | qubitList : List Int → Cell
  deriving DecidableEq

/-- `pandas.isna` on a cell. -/
def Cell.isNA : Cell → Bool
  | .na => true
  | _ => false

/-- A dataframe row: a mapping from column name to cell. -/
abbrev Rowt := Dict String Cell

/-- Reading a cell of a row; a column that exists in the frame but was never
assigned in this row reads as `NaN`. -/
def getCell (r : Rowt) (c : String) : Cell := (dget r c).getD .na

structure DataFrame where
  colNames : List String
  rows : List Rowt
  deriving DecidableEq

/-- `column in dataframe.columns`. -/
def DataFrame.hasColumn (df : DataFrame) (c : String) : Bool :=
  df.colNames.contains c

/-- `dataframe.at[i, c]` for a row index. -/
def DataFrame.getRow? (df : DataFrame) (i : Int) : Option Rowt :=
  if h : 0 ≤ i ∧ i.toNat < df.rows.length then df.rows.get ⟨i.toNat, h.2⟩
  else none

/-! ### Parsing multi-value cells

`int(fragment)` and `float(fragment)` on the pieces of a `;`/`:`-delimited
multi-value cell.  Python's `str.split` with a one-character separator keeps
empty pieces; `float` accepts the plain decimal forms that occur in the
calibration files (`"0.01"`, `"12.5"`, optionally signed); scientific
notation does not occur in these cells and is not modelled. -/

/-- `s.split(sep)` for a one-character separator, over the character list. -/
def splitOnChar (sep : Char) : List Char → List (List Char)
  | [] => [[]]
  | c :: cs =>
    match splitOnChar sep cs with
    | [] => if c = sep then [[], []] else [[c]]
    | piece :: pieces =>
      if c = sep then [] :: piece :: pieces else (c :: piece) :: pieces

/-- `s.split(sep)`. -/
def pySplit (s : String) (sep : Char) : List String :=
  (splitOnChar sep s.data).map String.mk

/-- Digits accumulated into a number; `none` on a non-digit. -/
def digitsToNat? : List Char → Nat → Option Nat
  | [], acc => some acc
  | c :: cs, acc =>
    if c.isDigit then digitsToNat? cs (acc * 10 + (c.toNat - 48)) else none

/-- A non-empty digit string as a number. -/
def pyNat? (l : List Char) : Option Nat :=
  match l with
  | [] => none
  | _ => digitsToNat? l 0

/-- `int(s)`: an optional minus sign followed by digits. -/
def pyInt? (s : String) : Option Int :=
  match s.data with
  | '-' :: rest => (pyNat? rest).map (fun n => -(n : Int))
  | l => (pyNat? l).map (fun n => (n : Int))

/-- `float(s)` for an unsigned plain decimal. -/
def pyFloatNonneg? (l : List Char) : Option PyFloat :=
  match splitOnChar '.' l with
  | [a] => (pyNat? a).map pfNat
  | [a, b] =>
    match pyNat? a, pyNat? b with
    | some n, some f => some (pfMk ((n : Int) * (10 ^ b.length : Nat) + f) (10 ^ b.length))
    | _, _ => none
  | _ => none

/-- `float(s)` for a plain decimal, optionally signed. -/
def pyFloat? (s : String) : Option PyFloat :=
  match s.data with
  | '-' :: rest => (pyFloatNonneg? rest).map pfNeg
  | l => (pyFloatNonneg? l)

/-- One fragment `"target:value"` of a multi-value cell:
`target_qubit, value = column_value.split(":")`, then
`int(target_qubit)` and `float(value)`. -/
def parseFragment (fragment : String) : Option (Int × PyFloat) :=
  match pySplit fragment ':' with
  | [a, b] =>
    match pyInt? a, pyFloat? b with
    | some t, some v => some (t, v)
    | _, _ => none
  | _ => none

/-- The inner loop of `modify_dataframe_data` over
`column_values.split(";")`: builds the `modified_data` dictionary (later
fragments with the same target overwrite earlier ones) and collects every
target index, in fragment order, for `found_neighbors`. -/
def parseFragments : List String → Dict Int PyFloat → List Int →
    Option (Dict Int PyFloat × List Int)
  | [], m, ts => some (m, ts)
  | f :: fs, m, ts =>
    match parseFragment f with
    | some (t, v) => parseFragments fs (dset m t v) (ts ++ [t])
    | none => none

/-- Splitting a non-empty multi-value cell on `";"` and parsing each
fragment. -/
def parse_multi_value (s : String) : Option (Dict Int PyFloat × List Int) :=
  parseFragments (pySplit s ';') [] []

/-! ### The calibration-table transform
(`core/instance_managers/helpers/csv_modification.py`)

The column names involved come from the configuration files
(`config.json` / `csv_columns.json`, resolved through
`CONFIG[...]`/`CSV_COLUMNS[...]["csv_name"]` at run time); the transform is
parameterized by them. -/

structure PipelineConfig where
  /-- `CONFIG["not_required_columns"]`. -/
  notRequired : List String
  /-- `CONFIG["multi_data_columns"]`, resolved to csv column names. -/
  multiCols : List String
  /-- `CSV_COLUMNS["neighboring_qubits"]["csv_name"]`. -/
  neighborCol : String
  /-- `CSV_COLUMNS["reset_time"]["csv_name"]`. -/
  resetCol : String
  deriving DecidableEq

/-- `remove_unnecessary_collumns`: drop every configured not-required column
that is present in the frame. -/
def remove_unnecessary_collumns (notRequired : List String)
    (df : DataFrame) : DataFrame :=
  notRequired.foldl
    (fun acc column =>
      if acc.hasColumn column then
        { colNames := acc.colNames.filter (fun c => ¬ c = column),
          rows := acc.rows.map (fun r => derase r column) }
      else acc)
    df

/-- `dataframe[c] = v` for a whole column: adds the column name when new and
assigns the cell in every row. -/
def DataFrame.setColumn (df : DataFrame) (c : String) (v : Cell) : DataFrame :=
  { colNames := if df.colNames.contains c then df.colNames
                else df.colNames ++ [c],
    rows := df.rows.map (fun r => dset r c v) }

/-- `add_additional_columns`: initialize the `neighboring_qubits` column to
`NaN` (the `astype(object)` cast is a representation detail with no
value-level effect) and set the `reset_time` column to the constant default
1300 in every row. -/
def add_additional_columns (cfg : PipelineConfig) (df : DataFrame) :
    DataFrame :=
  (df.setColumn cfg.neighborCol .na).setColumn cfg.resetCol (.num (pfNat 1300))

/-- The per-row loop state of `modify_dataframe_data`: the row being
modified in place, `found_neighbors`, and `are_neighbors_found`. -/
structure RowState where
  row : Rowt
  found_neighbors : List Int
  are_neighbors_found : Bool
  deriving DecidableEq

/-- The body of `for column in CONFIG["multi_data_columns"]` for one row:
skip the column when absent from the frame or its cell is `NaN`; otherwise
split and parse the cell string (a non-string, non-`NaN` cell would make
Python's `.split` raise, modelled as `none`), replace the cell with the
parsed mapping, assign `found_neighbors` to the `neighboring_qubits` cell,
and record that neighbors were found.  Fragment targets extend
`found_neighbors` only while `are_neighbors_found` is still false. -/
def processColumn (cfg : PipelineConfig) (colNames : List String)
    (st : RowState) (column_name : String) : Option RowState :=
  if colNames.contains column_name then
    let column_values := getCell st.row column_name
    if column_values.isNA then some st
    else
      match column_values with
      | .str s =>
        match parseFragments (pySplit s ';') []
            (if st.are_neighbors_found then [] else st.found_neighbors) with
        | some (modified_data, found_neighbors) =>
          let found_neighbors :=
            if st.are_neighbors_found then st.found_neighbors
            else found_neighbors
          some { row := dset (dset st.row column_name (.mapping modified_data))
                   cfg.neighborCol (.qubitList found_neighbors),
                 found_neighbors := found_neighbors,
                 are_neighbors_found := true }
        | none => none
      | _ => none
  else some st

/-- The loop over all configured multi-value columns for one row. -/
def processColumns (cfg : PipelineConfig) (colNames : List String) :
    List String → RowState → Option RowState
  | [], st => some st
  | c :: rest, st =>
    match processColumn cfg colNames st c with
    | some st' => processColumns cfg colNames rest st'
    | none => none

/-- One row of `modify_dataframe_data`. -/
def modifyRow (cfg : PipelineConfig) (colNames : List String) (r : Rowt) :
    Option Rowt :=
  (processColumns cfg colNames cfg.multiCols
    { row := r, found_neighbors := [], are_neighbors_found := false }).map
    (fun st => st.row)

/-- All rows (`for current_qubit in range(len(dataframe))`). -/
def modifyRows (cfg : PipelineConfig) (colNames : List String) :
    List Rowt → Option (List Rowt)
  | [] => some []
  | r :: rs =>
    match modifyRow cfg colNames r, modifyRows cfg colNames rs with
    | some r', some rs' => some (r' :: rs')
    | _, _ => none

/-- `modify_dataframe_data` from
`core/instance_managers/helpers/csv_modification.py`. -/
def modify_dataframe_data (cfg : PipelineConfig) (df : DataFrame) :
    Option DataFrame :=
  (modifyRows cfg df.colNames df.rows).map
    (fun rs => { colNames := df.colNames, rows := rs })

/-! ### Errors (`exceptions.py` and the message catalogue)

One constructor per distinct error message raised by the embedded code.
`noKeyInstance`/`instanceKeyExists` are the two messages of
`KeyExistanceError`, `blockedReferenceKey` is `BlockedKeyError` (carrying
the reference key, both category labels and the blocking key),
`negativeQubitNumber`/`largeQubitNumber` are the two `InputArgumentError`
messages of `validate_qubit_number`, `fileType` is the file-extension
failure of `validate_file_type`, and `pyKeyError`/`pyValueError` stand for
raw Python exceptions that the managers do not catch (a `del` on a missing
key; a parse failure inside the import pipeline). -/

inductive INSErr where
  | noKeyInstance (instanceType referenceKey : String)
  | instanceKeyExists (instanceType referenceKey : String)
  | blockedReferenceKey
      (referenceKey instanceType blockerInstanceType blocker : String)
  | negativeQubitNumber (qubit : Int)
  | largeQubitNumber (qubit maxQubits : Int)
  | fileType (filePath : String)
  | pyKeyError (key : String)
  | pyValueError
  deriving DecidableEq

/-- `check_instance_key` from `core/utils/checkers.py` (with
`raise_error=True`): `none` when the key's existence matches
`should_exist`, otherwise the raised `KeyExistanceError`. -/
def check_instance_key {α : Type} (reference_key : String)
    (should_exist : Bool) (instances : Dict String α)
    (instance_type : String) : Option INSErr :=
  if should_exist then
    if dmem instances reference_key then none
    else some (.noKeyInstance instance_type reference_key)
  else
    if dmem instances reference_key then
      some (.instanceKeyExists instance_type reference_key)
    else none

/-- Modelled from the spec: `validate_file_type` (imported by the managers
from `utils.validators` but not present in the sources) — "fails with
FileTypeError if extension is not the expected tabular format", the
expected extensions being `".csv"`/`".CSV"`. -/
def validate_file_type (file_path : String) : Option INSErr :=
  if List.isSuffixOf ".csv".data file_path.data
      || List.isSuffixOf ".CSV".data file_path.data then none
  else some (.fileType file_path)

/-! ### The key blocker (`core/utils/key_blocker.py`)

`key_availability` has exactly two categories, `"noise_data"` (blocked by
noise models) and `"noise_models"` (blocked by simulators), each holding a
`blocked_keys` table from blocked key to blocking key. -/

inductive InstanceType where
  | noise_data
  | noise_models
  deriving DecidableEq

def InstanceType.selfType : InstanceType → String
  | .noise_data => "noise data"
  | .noise_models => "noise model"

def InstanceType.blockerType : InstanceType → String
  | .noise_data => "noise model"
  | .noise_models => "simulator"

structure KeyBlocker where
  noise_data_blocked : Dict String String
  noise_models_blocked : Dict String String
  deriving DecidableEq

def KeyBlocker.blockedKeys (kb : KeyBlocker) : InstanceType → Dict String String
  | .noise_data => kb.noise_data_blocked
  | .noise_models => kb.noise_models_blocked

/-- `block_key`: `blocked_keys[key] = blocker_key` (inserts or
overwrites). -/
def KeyBlocker.block_key (kb : KeyBlocker) (key : String)
    (instance_type : InstanceType) (blocker_key : String) : KeyBlocker :=
  match instance_type with
  | .noise_data =>
    { kb with noise_data_blocked := dset kb.noise_data_blocked key blocker_key }
  | .noise_models =>
    { kb with noise_models_blocked := dset kb.noise_models_blocked key blocker_key }

/-- `unblock_key`: `del blocked_keys[key]`; a raw `KeyError` (here `none`)
when the key is not blocked. -/
def KeyBlocker.unblock_key (kb : KeyBlocker) (key : String)
    (instance_type : InstanceType) : Option KeyBlocker :=
  if dmem (kb.blockedKeys instance_type) key then
    match instance_type with
    | .noise_data =>
      some { kb with noise_data_blocked := derase kb.noise_data_blocked key }
    | .noise_models =>
      some { kb with noise_models_blocked := derase kb.noise_models_blocked key }
  else none

/-- `check_blocked_key`: the `BlockedKeyError` when the key is blocked,
`none` otherwise. -/
def KeyBlocker.check_blocked_key (kb : KeyBlocker) (key : String)
    (instance_type : InstanceType) : Option INSErr :=
  match dget (kb.blockedKeys instance_type) key with
  | some blocker =>
    some (.blockedReferenceKey key instance_type.selfType
      instance_type.blockerType blocker)
  | none => none

/-! ### Instances (`core/data_structures/*.py`) -/

structure NoiseDataInstance where
  file_name : String
  full_path : String
  dataframe : DataFrame
  deriving DecidableEq

/-- `len(self.dataframe)`. -/
def NoiseDataInstance.get_qubit_count (inst : NoiseDataInstance) : Nat :=
  inst.dataframe.rows.length

/-- `validate_qubit_number` from
`core/data_structures/noise_data_instance.py`: `none` when the qubit number
is valid, otherwise the raised `InputArgumentError` message.  The function
is pure: a failed validation changes no state. -/
def NoiseDataInstance.validate_qubit_number (inst : NoiseDataInstance)
    (qubit_nr : Int) : Option INSErr :=
  let qubit_count : Int := (inst.get_qubit_count : Int) - 1
  if qubit_nr < 0 then some (.negativeQubitNumber qubit_nr)
  else if qubit_nr > qubit_count then
    some (.largeQubitNumber qubit_nr qubit_count)
  else none

/-- A noise model instance records the reference key of the noise data it
was built from (`new_instance["data_source"]`); the `NoiseModel` and
`CouplingMap` objects live in the external simulation library. -/
structure NoiseModelInstance where
  data_source : String
  deriving DecidableEq

/-- A simulator instance records the reference key of its noise model
(`new_instance["noise_model_source"]`); the backend object is external. -/
structure SimulatorInstance where
  noise_model_source : String
  deriving DecidableEq

/-! ### Building noise-model errors (`noise_creator.py`)

The error objects themselves (`thermal_relaxation_error`,
`depolarizing_error`, `ReadoutError`) belong to the external simulation
library; what is modelled is which constructions are performed with which
parameters, and under which instruction names and qubits they are attached
to the noise model (`add_quantum_error`).  Gate lists and column names come
from the configuration files and are parameters. -/

structure GateSpec where
  /-- The configuration name of the gate (e.g. `"rz_gate_error"`). -/
  id : String
  /-- `CSV_COLUMNS[gate]["csv_name"]`. -/
  csvName : String
  /-- `CSV_COLUMNS[gate]["code_name"]`. -/
  codeName : String
  deriving DecidableEq

structure NoiseConfig where
  t1Col : String
  t2Col : String
  gateTime1qCol : String
  gateTime2qCol : String
  readoutCol : String
  resetCol : String
  m0p1Col : String
  m1p0Col : String
  singleQubitGates : List GateSpec
  twoQubitGates : List GateSpec
  deriving DecidableEq

structure ThermalParams where
  t1 : PyFloat
  t2 : PyFloat
  time : PyFloat
  deriving DecidableEq

/-- A constructed quantum error: a single thermal-relaxation error, the
`expand` of two of them (two-qubit gates), or a depolarizing error. -/
inductive QError where
  | thermal (p : ThermalParams)
  | thermalExpand (p1 p2 : ThermalParams)
  | depolarizing (param : PyFloat) (num_qubits : Nat)
  deriving DecidableEq

/-- One `noise_model.add_quantum_error(error, instructions, qubits)`
call. -/
structure Attachment where
  error : QError
  instructions : String
  qubits : List Int
  deriving DecidableEq

/-- The `thermal_relaxation_error` constructions inside an attachment. -/
def Attachment.thermalCalls : Attachment → List ThermalParams
  | ⟨.thermal p, _, _⟩ => [p]
  | ⟨.thermalExpand p1 p2, _, _⟩ => [p1, p2]
  | ⟨.depolarizing _ _, _, _⟩ => []

/-- `columns[c]` expected to hold a number (`NaN` or a missing column makes
the downstream error construction fail, modelled as `none`). -/
def rowNum? (r : Rowt) (c : String) : Option PyFloat :=
  match dget r c with
  | some (.num q) => some q
  | _ => none

/-- `c in columns`. -/
def hasCol (r : Rowt) (c : String) : Bool := (dget r c).isSome

/-- `__add_readout_error`: reads the two readout-assignment-error columns
and constructs `ReadoutError([[1-m0p1, m0p1], [m1p0, 1-m1p0]])` for the
qubit; only success is tracked. -/
def add_readout_error (cfg : NoiseConfig) (columns : Rowt) :
    Option (PyFloat × PyFloat) :=
  match rowNum? columns cfg.m0p1Col, rowNum? columns cfg.m1p0Col with
  | some m0p1, some m1p0 => some (m0p1, m1p0)
  | _, _ => none

/-- The single-qubit-gate loop of `__add_depolarizing_error`: a gate whose
calibration column is present and non-`NaN` contributes one depolarizing
error on this qubit; a `NaN` cell is skipped (the observed upstream data
quality issue). -/
def depolSingles (qubit : Int) (columns : Rowt) :
    List GateSpec → Option (List Attachment)
  | [] => some []
  | g :: gs =>
    if hasCol columns g.csvName then
      match getCell columns g.csvName with
      | .na =>
        depolSingles qubit columns gs
      | .num error_data =>
        match depolSingles qubit columns gs with
        | some rest => some (⟨.depolarizing error_data 1, g.codeName, [qubit]⟩ :: rest)
        | none => none
      | _ => none
    else depolSingles qubit columns gs

/-- The two-qubit-gate loop of `__add_depolarizing_error`: one depolarizing
error per neighbor entry of the gate's multi-value mapping. -/
def depolTwos (qubit : Int) (columns : Rowt) :
    List GateSpec → Option (List Attachment)
  | [] => some []
  | g :: gs =>
    if hasCol columns g.csvName then
      match getCell columns g.csvName with
      | .na => depolTwos qubit columns gs
      | .mapping m =>
        match depolTwos qubit columns gs with
        | some rest =>
          some ((m.map (fun tv =>
            Attachment.mk (.depolarizing tv.2 2) g.codeName [qubit, tv.1])) ++ rest)
        | none => none
      | _ => none
    else depolTwos qubit columns gs

/-- `__add_depolarizing_error`. -/
def add_depolarizing_error (cfg : NoiseConfig) (qubit : Int)
    (columns : Rowt) : Option (List Attachment) :=
  match depolSingles qubit columns cfg.singleQubitGates,
      depolTwos qubit columns cfg.twoQubitGates with
  | some a, some b => some (a ++ b)
  | _, _ => none

/-- The per-neighbor loop of `__add_thermal_error` for two-qubit gates: the
target qubit's T1/T2 are looked up in the dataframe, the target's T2 is
clamped the same way, and the `expand` of the two thermal errors is
attached for every two-qubit gate present. -/
def thermalTargets (cfg : NoiseConfig) (qubit : Int) (t1_time t2_time : PyFloat)
    (columns : Rowt) (noise_dataframe : DataFrame) :
    Dict Int PyFloat → Option (List Attachment)
  | [] => some []
  | (target_qubit, gtime) :: rest =>
    match (noise_dataframe.getRow? target_qubit).bind
        (fun r => rowNum? r cfg.t1Col),
      (noise_dataframe.getRow? target_qubit).bind
        (fun r => rowNum? r cfg.t2Col) with
    | some t1b, some t2b =>
      let t1_time_q2 := pfMul t1b microFactor
      let csv_t2_value := pfMul t2b microFactor
      let t2_time_q2 := pfMin csv_t2_value (pfMul t1_time_q2 (pfNat 2))
      let p1 : ThermalParams := ⟨t1_time, t2_time, pfMul gtime nanoFactor⟩
      let p2 : ThermalParams := ⟨t1_time_q2, t2_time_q2, pfMul gtime nanoFactor⟩
      let atts := (cfg.twoQubitGates.filter
        (fun g => hasCol columns g.csvName)).map
        (fun g => Attachment.mk (.thermalExpand p1 p2) g.codeName
          [qubit, target_qubit])
      match thermalTargets cfg qubit t1_time t2_time columns noise_dataframe rest with
      | some r => some (atts ++ r)
      | none => none
    | _, _ => none

/-- `__add_thermal_error`: reads T1/T2 (microseconds, so scaled by `1e-6`),
clamps T2 to `min(T2, 2*T1)`, attaches the single-qubit thermal error for
every single-qubit gate except the RZ gate, attaches expanded pair errors
for two-qubit gates per neighbor, then the measure-, reset- and
(zero-duration) RZ-intended errors — the last one under the instruction
name `"reset"`, exactly as in the source. -/
def add_thermal_error (cfg : NoiseConfig) (qubit : Int) (columns : Rowt)
    (noise_dataframe : DataFrame) : Option (List Attachment) :=
  match rowNum? columns cfg.t1Col, rowNum? columns cfg.t2Col with
  | some t1raw, some t2raw =>
    let t1_time := pfMul t1raw microFactor
    let csv_t2_value := pfMul t2raw microFactor
    let t2_time := pfMin csv_t2_value (pfMul t1_time (pfNat 2))
    match rowNum? columns cfg.gateTime1qCol with
    | some g1 =>
      let single_qubit_gate_time := pfMul g1 nanoFactor
      let thermal_error_1q :=
        QError.thermal ⟨t1_time, t2_time, single_qubit_gate_time⟩
      let singles := (cfg.singleQubitGates.filter
        (fun g => !(g.id = "rz_gate_error" : Bool) && hasCol columns g.csvName)).map
        (fun g => Attachment.mk thermal_error_1q g.codeName [qubit])
      match dget columns cfg.gateTime2qCol with
      | none => none
      | some two_qubit_gate_time =>
        match (match two_qubit_gate_time with
          | .na => some []
          | .mapping m =>
            thermalTargets cfg qubit t1_time t2_time columns noise_dataframe m
          | _ => none) with
        | none => none
        | some twoq =>
          match rowNum? columns cfg.readoutCol, rowNum? columns cfg.resetCol with
          | some readout_raw, some reset_raw =>
            some (singles ++ twoq ++
              [⟨.thermal ⟨t1_time, t2_time, pfMul readout_raw nanoFactor⟩,
                 "measure", [qubit]⟩,
               ⟨.thermal ⟨t1_time, t2_time, pfMul reset_raw nanoFactor⟩,
                 "reset", [qubit]⟩,
               ⟨.thermal ⟨t1_time, t2_time, pfNat 0⟩,
                 "reset", [qubit]⟩])
          | _, _ => none
    | none => none
  | _, _ => none

/-- The per-row error-building loop of `create_noise_model`
(`for qubit_nr, columns in noise_dataframe.iterrows()`): readout,
depolarizing and thermal errors per qubit, in source order. -/
def buildRows (cfg : NoiseConfig) (df : DataFrame) :
    List Rowt → Int → Option (List Attachment)
  | [], _ => some []
  | r :: rest, qubit =>
    match add_readout_error cfg r with
    | none => none
    | some _ =>
      match add_depolarizing_error cfg qubit r with
      | none => none
      | some dep =>
        match add_thermal_error cfg qubit r df with
        | none => none
        | some th =>
          match buildRows cfg df rest (qubit + 1) with
          | some rest' => some (dep ++ th ++ rest')
          | none => none

/-- All error constructions performed by `create_noise_model` when noise is
enabled; `none` when some construction raises. -/
def buildNoiseModelErrors (cfg : NoiseConfig) (df : DataFrame) :
    Option (List Attachment) :=
  buildRows cfg df df.rows 0

/-! ### The three managers

`NoiseDataManager`, `NoiseCreator` and `SimulatorManager` share one key
blocker through linking; the combined system state holds the three
registries and the blocker.  Each manager method either completes its
mutation or reports an error having mutated nothing (every registry/lock
mutation in the sources happens after the validation block), so a method is
a function `SysState → Except INSErr SysState` whose error result stands
for an unchanged state. -/

structure SysState where
  noise_data : Dict String NoiseDataInstance
  noise_models : Dict String NoiseModelInstance
  simulators : Dict String SimulatorInstance
  blocker : KeyBlocker
  deriving DecidableEq

/-- The freshly constructed and linked managers: empty registries, empty
lock tables. -/
def initState : SysState := ⟨[], [], [], ⟨[], []⟩⟩

instance instExceptDecEq {ε α : Type} [DecidableEq ε] [DecidableEq α] :
    DecidableEq (Except ε α) := fun x y =>
  match x, y with
  | .ok a, .ok b =>
    if h : a = b then isTrue (by rw [h])
    else isFalse (fun hh => by cases hh; exact h rfl)
  | .error a, .error b =>
    if h : a = b then isTrue (by rw [h])
    else isFalse (fun hh => by cases hh; exact h rfl)
  | .ok _, .error _ => isFalse (fun hh => by cases hh)
  | .error _, .ok _ => isFalse (fun hh => by cases hh)

/-- `NoiseDataManager.import_csv_data`: normalize the reference key, check
it is unused and unblocked and that the file is a CSV, then read, trim,
extend and transform the table and register the new instance.  The parsed
raw table stands for the result of `pandas.read_csv`; `Path(...).name` /
`resolve()` are filesystem operations, so the path is recorded verbatim. -/
def importCsvData (cfg : PipelineConfig) (reference_key file_path : String)
    (csv : DataFrame) (s : SysState) : Except INSErr SysState :=
  let key := validate_instance_name reference_key
  match check_instance_key key false s.noise_data "noise data instance" with
  | some e => .error e
  | none =>
  match s.blocker.check_blocked_key key .noise_data with
  | some e => .error e
  | none =>
  match validate_file_type file_path with
  | some e => .error e
  | none =>
  match modify_dataframe_data cfg
      (add_additional_columns cfg (remove_unnecessary_collumns cfg.notRequired csv)) with
  | none => .error .pyValueError
  | some dataframe =>
    .ok { s with noise_data :=
            (dset s.noise_data key ⟨file_path, file_path, dataframe⟩) }

/-- `NoiseDataManager.remove_noise_data_instance`: checks only that an
instance with the key exists, then deletes it; the lock tables are not
consulted. -/
def removeNoiseDataInstance (reference_key : String) (s : SysState) :
    Except INSErr SysState :=
  match check_instance_key reference_key true s.noise_data
      "noise data instance" with
  | some e => .error e
  | none => .ok { s with noise_data := derase s.noise_data reference_key }

/-- `NoiseCreator.create_noise_model`: validates that the data key exists,
that the (raw) model key is unused and not blocked by a simulator, then
normalizes the model key, builds the error model from the data instance's
table (when noise is enabled), registers the model under the normalized key
and blocks the data key with the new model key as blocker.  Normalization
happens after the checks, exactly as in the source. -/
def createNoiseModel (cfg : NoiseConfig)
    (noise_model_reference_key data_reference_key : String)
    (has_noise : Bool) (s : SysState) : Except INSErr SysState :=
  match check_instance_key data_reference_key true s.noise_data
      "noise data instance" with
  | some e => .error e
  | none =>
  match check_instance_key noise_model_reference_key false s.noise_models
      "noise model instance" with
  | some e => .error e
  | none =>
  match s.blocker.check_blocked_key noise_model_reference_key .noise_models with
  | some e => .error e
  | none =>
  let key := validate_instance_name noise_model_reference_key
  match dget s.noise_data data_reference_key with
  | none => .error (.pyKeyError data_reference_key)
  | some dataInst =>
    match (if has_noise then buildNoiseModelErrors cfg dataInst.dataframe
           else some []) with
    | none => .error .pyValueError
    | some _errors =>
      .ok { s with
        noise_models := dset s.noise_models key ⟨data_reference_key⟩,
        blocker := s.blocker.block_key data_reference_key .noise_data key }

/-- `NoiseCreator.remove_noise_model_instance`: checks only that the model
key exists (the `noise_models` lock table is not consulted), unblocks the
model's data source — a raw `KeyError` if that key is not blocked — and
deletes the model. -/
def removeNoiseModelInstance (reference_key : String) (s : SysState) :
    Except INSErr SysState :=
  match check_instance_key reference_key true s.noise_models
      "noise model instance" with
  | some e => .error e
  | none =>
  match dget s.noise_models reference_key with
  | none => .error (.pyKeyError reference_key)
  | some instance_ =>
    match s.blocker.unblock_key instance_.data_source .noise_data with
    | none => .error (.pyKeyError instance_.data_source)
    | some kb =>
      .ok { s with noise_models := derase s.noise_models reference_key,
                   blocker := kb }

/-- `SimulatorManager.create_simulator`: validates that the model key
exists and the (raw) simulator key is unused, normalizes the simulator key,
registers the simulator and blocks the model key.  There is no lock table
for simulator keys, so no blocked-key check is performed. -/
def createSimulator
    (noise_model_reference_key simulator_reference_key : String)
    (s : SysState) : Except INSErr SysState :=
  match check_instance_key noise_model_reference_key true s.noise_models
      "noise model instance" with
  | some e => .error e
  | none =>
  match check_instance_key simulator_reference_key false s.simulators
      "simulator instance" with
  | some e => .error e
  | none =>
  let key := validate_instance_name simulator_reference_key
  .ok { s with
    simulators := dset s.simulators key ⟨noise_model_reference_key⟩,
    blocker := s.blocker.block_key noise_model_reference_key .noise_models key }

/-- `SimulatorManager.remove_simulator_instance`: checks that the simulator
key exists, unblocks its noise model key and deletes the simulator. -/
def removeSimulatorInstance (reference_key : String) (s : SysState) :
    Except INSErr SysState :=
  match check_instance_key reference_key true s.simulators
      "simulator instance" with
  | some e => .error e
  | none =>
  match dget s.simulators reference_key with
  | none => .error (.pyKeyError reference_key)
  | some instance_ =>
    match s.blocker.unblock_key instance_.noise_model_source .noise_models with
    | none => .error (.pyKeyError instance_.noise_model_source)
    | some kb =>
      .ok { s with simulators := derase s.simulators reference_key,
                   blocker := kb }

/-! ### Reachability

A step is one successful create/import/remove operation (an operation that
reports an error leaves the state unchanged and is therefore not a step).
`ReachableNoSpace` restricts to operation sequences whose user-supplied
keys contain no spaces, so that key normalization is the identity. -/

inductive Step : SysState → SysState → Prop where
  | importCsv (cfg : PipelineConfig) (k fp : String) (t : DataFrame)
      {s s' : SysState} (h : importCsvData cfg k fp t s = .ok s') : Step s s'
  | createModel (cfg : NoiseConfig) (mk dk : String) (hn : Bool)
      {s s' : SysState} (h : createNoiseModel cfg mk dk hn s = .ok s') :
      Step s s'
  | createSim (mk sk : String) {s s' : SysState}
      (h : createSimulator mk sk s = .ok s') : Step s s'
  | removeData (k : String) {s s' : SysState}
      (h : removeNoiseDataInstance k s = .ok s') : Step s s'
  | removeModel (k : String) {s s' : SysState}
      (h : removeNoiseModelInstance k s = .ok s') : Step s s'
  | removeSim (k : String) {s s' : SysState}
      (h : removeSimulatorInstance k s = .ok s') : Step s s'

inductive Reachable : SysState → Prop where
  | init : Reachable initState
  | step {s s' : SysState} : Reachable s → Step s s' → Reachable s'

inductive StepNS : SysState → SysState → Prop where
  | importCsv (cfg : PipelineConfig) (k fp : String) (t : DataFrame)
      {s s' : SysState} (hk : has_space k = false)
      (h : importCsvData cfg k fp t s = .ok s') : StepNS s s'
  | createModel (cfg : NoiseConfig) (mk dk : String) (hn : Bool)
      {s s' : SysState} (hk : has_space mk = false)
      (h : createNoiseModel cfg mk dk hn s = .ok s') : StepNS s s'
  | createSim (mk sk : String) {s s' : SysState}
      (hk : has_space sk = false)
      (h : createSimulator mk sk s = .ok s') : StepNS s s'
  | removeData (k : String) {s s' : SysState}
      (h : removeNoiseDataInstance k s = .ok s') : StepNS s s'
  | removeModel (k : String) {s s' : SysState}
      (h : removeNoiseModelInstance k s = .ok s') : StepNS s s'
  | removeSim (k : String) {s s' : SysState}
      (h : removeSimulatorInstance k s = .ok s') : StepNS s s'

inductive ReachableNS : SysState → Prop where
  | init : ReachableNS initState
  | step {s s' : SysState} : ReachableNS s → StepNS s s' → ReachableNS s'

theorem stepNS_step {s s' : SysState} (h : StepNS s s') : Step s s' := by
  cases h with
  | importCsv cfg k fp t hk h => exact .importCsv cfg k fp t h
  | createModel cfg mk dk hn hk h => exact .createModel cfg mk dk hn h
  | createSim mk sk hk h => exact .createSim mk sk h
  | removeData k h => exact .removeData k h
  | removeModel k h => exact .removeModel k h
  | removeSim k h => exact .removeSim k h

theorem reachableNS_reachable {s : SysState} (h : ReachableNS s) :
    Reachable s := by
  induction h with
  | init => exact .init
  | step _ hstep ih => exact .step ih (stepNS_step hstep)

/-! ### Concrete scenario states

The spec's running scenario (import, `create_noise_model("m1","d1")`,
`create_simulator("m1","s1")`), instantiated with an empty calibration
table and a minimal configuration. -/

def cfgP0 : PipelineConfig := ⟨[], [], "neighboring_qubits", "reset_time"⟩

def cfgN0 : NoiseConfig :=
  ⟨"T1", "T2", "G1", "G2", "RO", "reset_time", "M0", "M1", [], []⟩

/-- The raw table read from the imported file. -/
def tbl0 : DataFrame := ⟨[], []⟩

/-- `tbl0` after the import pipeline. -/
def dfImp : DataFrame := ⟨["neighboring_qubits", "reset_time"], []⟩

def dInst : NoiseDataInstance := ⟨"cal.csv", "cal.csv", dfImp⟩

/-- After `import_csv_data("d1", "cal.csv")`. -/
def sA : SysState := ⟨[("d1", dInst)], [], [], ⟨[], []⟩⟩

/-- After `create_noise_model("m1", "d1")`. -/
def sB : SysState :=
  ⟨[("d1", dInst)], [("m1", ⟨"d1"⟩)], [], ⟨[("d1", "m1")], []⟩⟩

/-- After `create_simulator("m1", "s1")`. -/
def sC : SysState :=
  ⟨[("d1", dInst)], [("m1", ⟨"d1"⟩)], [("s1", ⟨"m1"⟩)],
   ⟨[("d1", "m1")], [("m1", "s1")]⟩⟩

theorem step_to_sA : importCsvData cfgP0 "d1" "cal.csv" tbl0 initState = .ok sA := by
  decide

theorem step_to_sB : createNoiseModel cfgN0 "m1" "d1" true sA = .ok sB := by
  decide

theorem step_to_sC : createSimulator "m1" "s1" sB = .ok sC := by decide

theorem reachable_sB : Reachable sB :=
  .step (.step .init (.importCsv cfgP0 "d1" "cal.csv" tbl0 step_to_sA))
    (.createModel cfgN0 "m1" "d1" true step_to_sB)

theorem reachable_sC : Reachable sC :=
  .step reachable_sB (.createSim "m1" "s1" step_to_sC)

theorem reachableNS_sC : ReachableNS sC :=
  .step
    (.step (.step .init
        (.importCsv cfgP0 "d1" "cal.csv" tbl0 (by decide) step_to_sA))
      (.createModel cfgN0 "m1" "d1" true (by decide) step_to_sB))
    (.createSim "m1" "s1" (by decide) step_to_sC)

/-! ### Characterizations of the operations -/

theorem check_instance_key_false_none {α : Type} {k t : String}
    {d : Dict String α} :
    check_instance_key k false d t = none ↔ dget d k = none := by
  unfold check_instance_key dmem
  cases dget d k <;> simp

theorem check_instance_key_true_none {α : Type} {k t : String}
    {d : Dict String α} :
    check_instance_key k true d t = none ↔ (dget d k).isSome := by
  unfold check_instance_key dmem
  cases dget d k <;> simp

theorem check_blocked_key_none {kb : KeyBlocker} {k : String}
    {ty : InstanceType} :
    kb.check_blocked_key k ty = none ↔ dget (kb.blockedKeys ty) k = none := by
  unfold KeyBlocker.check_blocked_key
  cases dget (kb.blockedKeys ty) k <;> simp

theorem importCsvData_ok {cfg : PipelineConfig} {k fp : String}
    {t : DataFrame} {s s' : SysState}
    (h : importCsvData cfg k fp t s = .ok s') :
    dget s.noise_data (validate_instance_name k) = none ∧
    dget s.blocker.noise_data_blocked (validate_instance_name k) = none ∧
    validate_file_type fp = none ∧
    ∃ df', modify_dataframe_data cfg
        (add_additional_columns cfg
          (remove_unnecessary_collumns cfg.notRequired t)) = some df' ∧
      s' = { s with noise_data :=
              (dset s.noise_data (validate_instance_name k) ⟨fp, fp, df'⟩) } := by
  simp only [importCsvData] at h
  split at h
  · exact absurd h (by simp)
  next hc1 =>
  split at h
  · exact absurd h (by simp)
  next hc2 =>
  split at h
  · exact absurd h (by simp)
  next hc3 =>
  split at h
  · exact absurd h (by simp)
  next df' hdf =>
  refine ⟨check_instance_key_false_none.mp hc1,
    check_blocked_key_none.mp hc2, hc3, df', hdf, ?_⟩
  cases h
  rfl

theorem removeNoiseDataInstance_ok {k : String} {s s' : SysState}
    (h : removeNoiseDataInstance k s = .ok s') :
    (dget s.noise_data k).isSome ∧
    s' = { s with noise_data := derase s.noise_data k } := by
  unfold removeNoiseDataInstance at h
  split at h
  · exact absurd h (by simp)
  next hc =>
  cases h
  exact ⟨check_instance_key_true_none.mp hc, rfl⟩

theorem removeNoiseDataInstance_run {k : String} {s : SysState}
    (h : (dget s.noise_data k).isSome) :
    removeNoiseDataInstance k s =
      .ok { s with noise_data := derase s.noise_data k } := by
  unfold removeNoiseDataInstance
  rw [show check_instance_key k true s.noise_data "noise data instance" = none
    from check_instance_key_true_none.mpr h]

theorem createNoiseModel_ok {cfg : NoiseConfig} {mk dk : String} {hn : Bool}
    {s s' : SysState} (h : createNoiseModel cfg mk dk hn s = .ok s') :
    ∃ dataInst errs,
      dget s.noise_data dk = some dataInst ∧
      dget s.noise_models mk = none ∧
      dget s.blocker.noise_models_blocked mk = none ∧
      (if hn then buildNoiseModelErrors cfg dataInst.dataframe
       else some []) = some errs ∧
      s' = { s with
        noise_models := dset s.noise_models (validate_instance_name mk)
          ⟨dk⟩,
        blocker := s.blocker.block_key dk .noise_data
          (validate_instance_name mk) } := by
  simp only [createNoiseModel] at h
  split at h
  · exact absurd h (by simp)
  next hc1 =>
  split at h
  · exact absurd h (by simp)
  next hc2 =>
  split at h
  · exact absurd h (by simp)
  next hc3 =>
  split at h
  · exact absurd h (by simp)
  next dataInst hdata =>
  split at h
  · exact absurd h (by simp)
  next errs herrs =>
  cases h
  exact ⟨dataInst, errs, hdata, check_instance_key_false_none.mp hc2,
    check_blocked_key_none.mp hc3, herrs, rfl⟩

theorem removeNoiseModelInstance_ok {k : String} {s s' : SysState}
    (h : removeNoiseModelInstance k s = .ok s') :
    ∃ instance_,
      dget s.noise_models k = some instance_ ∧
      (dget s.blocker.noise_data_blocked instance_.data_source).isSome ∧
      s' = { s with
        noise_models := (derase s.noise_models k),
        blocker := ({ s.blocker with noise_data_blocked :=
          (derase s.blocker.noise_data_blocked instance_.data_source) }) } := by
  simp only [removeNoiseModelInstance] at h
  split at h
  · exact absurd h (by simp)
  next hc =>
  split at h
  · exact absurd h (by simp)
  next instance_ hinst =>
  split at h
  · exact absurd h (by simp)
  next kb hkb =>
  cases h
  unfold KeyBlocker.unblock_key at hkb
  split at hkb
  next hmem =>
    refine ⟨instance_, hinst, by simpa [dmem, KeyBlocker.blockedKeys] using hmem, ?_⟩
    simp only [Option.some.injEq] at hkb
    rw [← hkb]
  next => exact absurd hkb (by simp)

theorem removeNoiseModelInstance_run {k : String} {s : SysState}
    {instance_ : NoiseModelInstance}
    (hinst : dget s.noise_models k = some instance_)
    (hsrc : (dget s.blocker.noise_data_blocked instance_.data_source).isSome) :
    removeNoiseModelInstance k s = .ok { s with
      noise_models := (derase s.noise_models k),
      blocker := ({ s.blocker with noise_data_blocked :=
        (derase s.blocker.noise_data_blocked instance_.data_source) }) } := by
  have hc : check_instance_key k true s.noise_models "noise model instance"
      = none := check_instance_key_true_none.mpr (by simp [hinst])
  simp [removeNoiseModelInstance, hc, hinst, KeyBlocker.unblock_key,
    KeyBlocker.blockedKeys, dmem, hsrc]

theorem createSimulator_ok {mk sk : String} {s s' : SysState}
    (h : createSimulator mk sk s = .ok s') :
    (dget s.noise_models mk).isSome ∧
    dget s.simulators sk = none ∧
    s' = { s with
      simulators := dset s.simulators (validate_instance_name sk) ⟨mk⟩,
      blocker := s.blocker.block_key mk .noise_models
        (validate_instance_name sk) } := by
  simp only [createSimulator] at h
  split at h
  · exact absurd h (by simp)
  next hc1 =>
  split at h
  · exact absurd h (by simp)
  next hc2 =>
  cases h
  exact ⟨check_instance_key_true_none.mp hc1,
    check_instance_key_false_none.mp hc2, rfl⟩

theorem removeSimulatorInstance_ok {k : String} {s s' : SysState}
    (h : removeSimulatorInstance k s = .ok s') :
    ∃ instance_,
      dget s.simulators k = some instance_ ∧
      (dget s.blocker.noise_models_blocked instance_.noise_model_source).isSome ∧
      s' = { s with
        simulators := (derase s.simulators k),
        blocker := ({ s.blocker with noise_models_blocked :=
          (derase s.blocker.noise_models_blocked
            instance_.noise_model_source) }) } := by
  simp only [removeSimulatorInstance] at h
  split at h
  · exact absurd h (by simp)
  next hc =>
  split at h
  · exact absurd h (by simp)
  next instance_ hinst =>
  split at h
  · exact absurd h (by simp)
  next kb hkb =>
  cases h
  unfold KeyBlocker.unblock_key at hkb
  split at hkb
  next hmem =>
    refine ⟨instance_, hinst, by simpa [dmem, KeyBlocker.blockedKeys] using hmem, ?_⟩
    simp only [Option.some.injEq] at hkb
    rw [← hkb]
  next => exact absurd hkb (by simp)

/-! ### State invariants

`NoSpaceKeys`: every registry key and every lock-table key of a reachable
state is space-free — registries only ever register normalized keys, and
lock-table keys are taken from the registries. `StateLegal`: every
dictionary of a reachable state has pairwise-distinct keys. -/

def NoSpaceList {α : Type} (d : Dict String α) : Prop :=
  ∀ p ∈ d, has_space p.1 = false

def NoSpaceKeys (s : SysState) : Prop :=
  NoSpaceList s.noise_data ∧ NoSpaceList s.noise_models ∧
  NoSpaceList s.simulators ∧ NoSpaceList s.blocker.noise_data_blocked ∧
  NoSpaceList s.blocker.noise_models_blocked

theorem noSpaceList_dset {α : Type} {d : Dict String α} {k : String} {v : α}
    (hd : NoSpaceList d) (hk : has_space k = false) :
    NoSpaceList (dset d k v) := by
  intro p hp
  rcases mem_dset hp with h | h
  · rw [h]; exact hk
  · exact hd p h

theorem noSpaceList_derase {α : Type} {d : Dict String α} {k : String}
    (hd : NoSpaceList d) : NoSpaceList (derase d k) :=
  fun p hp => hd p (mem_derase hp)

theorem noSpaceList_key {α : Type} {d : Dict String α} {k : String} {v : α}
    (hd : NoSpaceList d) (h : dget d k = some v) : has_space k = false :=
  hd (k, v) (dget_eq_some_mem h)

theorem reachable_noSpace {s : SysState} (h : Reachable s) : NoSpaceKeys s := by
  induction h with
  | init => exact ⟨by simp [initState, NoSpaceList], by simp [initState, NoSpaceList],
      by simp [initState, NoSpaceList], by simp [initState, NoSpaceList],
      by simp [initState, NoSpaceList]⟩
  | step _ hstep ih =>
    obtain ⟨ih1, ih2, ih3, ih4, ih5⟩ := ih
    cases hstep with
    | importCsv cfg k fp t h =>
      obtain ⟨_, _, _, df', _, rfl⟩ := importCsvData_ok h
      exact ⟨noSpaceList_dset ih1 (validate_instance_name_no_space k),
        ih2, ih3, ih4, ih5⟩
    | createModel cfg mk dk hn h =>
      obtain ⟨dataInst, errs, hdata, _, _, _, rfl⟩ := createNoiseModel_ok h
      exact ⟨ih1,
        noSpaceList_dset ih2 (validate_instance_name_no_space mk), ih3,
        noSpaceList_dset ih4 (noSpaceList_key ih1 hdata), ih5⟩
    | createSim mk sk h =>
      obtain ⟨hm, _, rfl⟩ := createSimulator_ok h
      obtain ⟨minst, hminst⟩ := Option.isSome_iff_exists.mp hm
      exact ⟨ih1, ih2,
        noSpaceList_dset ih3 (validate_instance_name_no_space sk), ih4,
        noSpaceList_dset ih5 (noSpaceList_key ih2 hminst)⟩
    | removeData k h =>
      obtain ⟨_, rfl⟩ := removeNoiseDataInstance_ok h
      exact ⟨noSpaceList_derase ih1, ih2, ih3, ih4, ih5⟩
    | removeModel k h =>
      obtain ⟨inst, _, _, rfl⟩ := removeNoiseModelInstance_ok h
      exact ⟨ih1, noSpaceList_derase ih2, ih3, noSpaceList_derase ih4, ih5⟩
    | removeSim k h =>
      obtain ⟨inst, _, _, rfl⟩ := removeSimulatorInstance_ok h
      exact ⟨ih1, ih2, noSpaceList_derase ih3, ih4, noSpaceList_derase ih5⟩

def StateLegal (s : SysState) : Prop :=
  DLegal s.noise_data ∧ DLegal s.noise_models ∧ DLegal s.simulators ∧
  DLegal s.blocker.noise_data_blocked ∧ DLegal s.blocker.noise_models_blocked

theorem reachable_legal {s : SysState} (h : Reachable s) : StateLegal s := by
  induction h with
  | init => exact ⟨by simp [initState, DLegal, dkeys],
      by simp [initState, DLegal, dkeys], by simp [initState, DLegal, dkeys],
      by simp [initState, DLegal, dkeys], by simp [initState, DLegal, dkeys]⟩
  | step _ hstep ih =>
    obtain ⟨ih1, ih2, ih3, ih4, ih5⟩ := ih
    cases hstep with
    | importCsv cfg k fp t h =>
      obtain ⟨_, _, _, df', _, rfl⟩ := importCsvData_ok h
      exact ⟨dlegal_dset _ _ ih1, ih2, ih3, ih4, ih5⟩
    | createModel cfg mk dk hn h =>
      obtain ⟨dataInst, errs, _, _, _, _, rfl⟩ := createNoiseModel_ok h
      exact ⟨ih1, dlegal_dset _ _ ih2, ih3, dlegal_dset _ _ ih4, ih5⟩
    | createSim mk sk h =>
      obtain ⟨_, _, rfl⟩ := createSimulator_ok h
      exact ⟨ih1, ih2, dlegal_dset _ _ ih3, ih4, dlegal_dset _ _ ih5⟩
    | removeData k h =>
      obtain ⟨_, rfl⟩ := removeNoiseDataInstance_ok h
      exact ⟨dlegal_derase _ ih1, ih2, ih3, ih4, ih5⟩
    | removeModel k h =>
      obtain ⟨inst, _, _, rfl⟩ := removeNoiseModelInstance_ok h
      exact ⟨ih1, dlegal_derase _ ih2, ih3, dlegal_derase _ ih4, ih5⟩
    | removeSim k h =>
      obtain ⟨inst, _, _, rfl⟩ := removeSimulatorInstance_ok h
      exact ⟨ih1, ih2, dlegal_derase _ ih3, ih4, dlegal_derase _ ih5⟩

/-- The sound direction of the lifecycle invariant: every lock entry names
a currently existing dependent instance whose recorded source is exactly
the blocked key. -/
def LockInv (s : SysState) : Prop :=
  (∀ k b, dget s.blocker.noise_data_blocked k = some b →
    ∃ inst, dget s.noise_models b = some inst ∧ inst.data_source = k) ∧
  (∀ k b, dget s.blocker.noise_models_blocked k = some b →
    ∃ inst, dget s.simulators b = some inst ∧ inst.noise_model_source = k)

/-! ### Further scenario states -/

/-- `sB` after `create_noise_model("m2", "d1")`: the lock on `"d1"` is
overwritten with blocker `"m2"`. -/
def sB2 : SysState :=
  ⟨[("d1", dInst)], [("m1", ⟨"d1"⟩), ("m2", ⟨"d1"⟩)], [],
   ⟨[("d1", "m2")], []⟩⟩

/-- `sB2` after `remove_noise_model_instance("m2")`: `"d1"` is unblocked
although `"m1"` still references it. -/
def sB3 : SysState := ⟨[("d1", dInst)], [("m1", ⟨"d1"⟩)], [], ⟨[], []⟩⟩

def dInst2 : NoiseDataInstance := ⟨"cal2.csv", "cal2.csv", dfImp⟩

/-- `sA` after `import_csv_data("d2", "cal2.csv")`. -/
def sA2 : SysState := ⟨[("d1", dInst), ("d2", dInst2)], [], [], ⟨[], []⟩⟩

/-- `sA2` after `create_noise_model("m 1", "d1")`: registered as `"m_1"`. -/
def sM1 : SysState :=
  ⟨[("d1", dInst), ("d2", dInst2)], [("m_1", ⟨"d1"⟩)], [],
   ⟨[("d1", "m_1")], []⟩⟩

/-- `sM1` after `create_noise_model("m 1", "d2")`: the existing model
`"m_1"` is silently overwritten. -/
def sM2 : SysState :=
  ⟨[("d1", dInst), ("d2", dInst2)], [("m_1", ⟨"d2"⟩)], [],
   ⟨[("d1", "m_1"), ("d2", "m_1")], []⟩⟩

theorem step_to_sB2 : createNoiseModel cfgN0 "m2" "d1" true sB = .ok sB2 := by
  decide

theorem step_to_sB3 : removeNoiseModelInstance "m2" sB2 = .ok sB3 := by decide

theorem step_to_sA2 : importCsvData cfgP0 "d2" "cal2.csv" tbl0 sA = .ok sA2 := by
  decide

theorem step_to_sM1 : createNoiseModel cfgN0 "m 1" "d1" true sA2 = .ok sM1 := by
  decide

theorem step_to_sM2 : createNoiseModel cfgN0 "m 1" "d2" true sM1 = .ok sM2 := by
  decide

theorem reachable_sB3 : Reachable sB3 :=
  .step (.step reachable_sB (.createModel cfgN0 "m2" "d1" true step_to_sB2))
    (.removeModel "m2" step_to_sB3)

theorem reachable_sM1 : Reachable sM1 :=
  .step (.step (.step .init
      (.importCsv cfgP0 "d1" "cal.csv" tbl0 step_to_sA))
      (.importCsv cfgP0 "d2" "cal2.csv" tbl0 step_to_sA2))
    (.createModel cfgN0 "m 1" "d1" true step_to_sM1)

/-! ### Claim C1 -/

/-- C1, counterexample: in the reachable state `sB` the noise model `"m1"`
exists with data source `"d1"` and `"d1"` is in the `noise_data` lock
table, yet `remove_noise_data_instance("d1")` does not fail with
`BlockedKeyError` — it succeeds, deletes `"d1"` from the data registry and
leaves the lock entry in place. -/
theorem C1_counterexample :
    Reachable sB ∧
    dget sB.noise_models "m1" = some ⟨"d1"⟩ ∧
    dget sB.blocker.noise_data_blocked "d1" = some "m1" ∧
    removeNoiseDataInstance "d1" sB =
      .ok ⟨[], [("m1", ⟨"d1"⟩)], [], ⟨[("d1", "m1")], []⟩⟩ :=
  ⟨reachable_sB, by decide, by decide, by decide⟩

/-- C1 (amended): `remove_noise_data_instance` never consults the lock
table.  In every reachable state in which a noise model `M` exists with
data source `D` and `D` is a registered (and locked) data key, removing `D`
succeeds, deleting only the registry entry and leaving both lock tables and
the other registries unchanged; removing the model `M` first and then `D`
also succeeds. -/
theorem C1_remove_data_ignores_lock (D M : String) (s : SysState)
    (_hreach : Reachable s)
    (hM : dget s.noise_models M = some ⟨D⟩)
    (hD : (dget s.noise_data D).isSome)
    (hlock : (dget s.blocker.noise_data_blocked D).isSome) :
    removeNoiseDataInstance D s =
      .ok { s with noise_data := derase s.noise_data D } ∧
    ∃ s2, removeNoiseModelInstance M s = .ok s2 ∧
      removeNoiseDataInstance D s2 =
        .ok { s2 with noise_data := derase s2.noise_data D } := by
  refine ⟨removeNoiseDataInstance_run hD, ?_⟩
  refine ⟨_, removeNoiseModelInstance_run hM hlock, ?_⟩
  exact removeNoiseDataInstance_run hD

/-- C1, witness: the amended statement at `sB`. -/
theorem C1_remove_data_ignores_lock_witness :
    removeNoiseDataInstance "d1" sB =
      .ok { sB with noise_data := derase sB.noise_data "d1" } ∧
    ∃ s2, removeNoiseModelInstance "m1" sB = .ok s2 ∧
      removeNoiseDataInstance "d1" s2 =
        .ok { s2 with noise_data := derase s2.noise_data "d1" } :=
  C1_remove_data_ignores_lock "d1" "m1" sB reachable_sB (by decide)
    (by decide) (by decide)

/-! ### Claim C2 -/

/-- C2, counterexample: in the reachable state `sC` the simulator `"s1"`
references the model `"m1"` and `"m1"` is in the `noise_models` lock table,
yet `remove_noise_model_instance("m1")` does not fail with
`BlockedKeyError`: it succeeds, deletes `"m1"`, unblocks its data source
`"d1"`, and leaves the (now dangling) lock entry for `"m1"` behind. -/
theorem C2_counterexample :
    Reachable sC ∧
    dget sC.simulators "s1" = some ⟨"m1"⟩ ∧
    dget sC.blocker.noise_models_blocked "m1" = some "s1" ∧
    removeNoiseModelInstance "m1" sC =
      .ok ⟨[("d1", dInst)], [], [("s1", ⟨"m1"⟩)], ⟨[], [("m1", "s1")]⟩⟩ :=
  ⟨reachable_sC, by decide, by decide, by decide⟩

/-- C2 (amended): `remove_noise_model_instance` never consults the
`noise_models` lock table.  In every reachable state in which model `M`
exists while a simulator lock entry for `M` is present (and `M`'s data
source is locked, as the unconditional unblock requires), removing `M`
succeeds: it deletes `M`, removes the data-source lock entry, and leaves
the `noise_models` lock table, the data registry and the simulator registry
unchanged. -/
theorem C2_remove_model_ignores_lock (M : String)
    (inst : NoiseModelInstance) (s : SysState)
    (_hreach : Reachable s)
    (hM : dget s.noise_models M = some inst)
    (_hblocked : (dget s.blocker.noise_models_blocked M).isSome)
    (hsrc : (dget s.blocker.noise_data_blocked inst.data_source).isSome) :
    removeNoiseModelInstance M s = .ok { s with
      noise_models := (derase s.noise_models M),
      blocker := ({ s.blocker with noise_data_blocked :=
        (derase s.blocker.noise_data_blocked inst.data_source) }) } :=
  removeNoiseModelInstance_run hM hsrc

/-- C2, witness: the amended statement at `sC`. -/
theorem C2_remove_model_ignores_lock_witness :
    removeNoiseModelInstance "m1" sC = .ok { sC with
      noise_models := (derase sC.noise_models "m1"),
      blocker := ({ sC.blocker with noise_data_blocked :=
        (derase sC.blocker.noise_data_blocked
          (NoiseModelInstance.mk "d1").data_source) }) } :=
  C2_remove_model_ignores_lock "m1" ⟨"d1"⟩ sC reachable_sC (by decide)
    (by decide) (by decide)

/-! ### Claim C3 -/

/-- C3, counterexample: `block_key` overwrites and `unblock_key` deletes
unconditionally, so two models built from the same data key leak the lock:
in the reachable state `sB3` the model `"m1"` still references `"d1"`, but
`"d1"` is no longer in the lock table — the claimed "key locked iff some
existing dependent references it" fails. -/
theorem C3_counterexample :
    Reachable sB3 ∧
    dget sB3.noise_models "m1" = some ⟨"d1"⟩ ∧
    dget sB3.blocker.noise_data_blocked "d1" = none :=
  ⟨reachable_sB3, by decide, by decide⟩

/-- C3 (amended): for operation sequences whose keys contain no spaces (so
that normalization is the identity and the raw-key duplicate checks are
reliable), the sound direction of the invariant holds: every lock entry of
either category names a currently existing dependent instance whose
recorded source is exactly the blocked key — in particular removing a
dependent always deletes its source's lock entry, and no lock entry
outlives its recorded blocker.  The converse direction is false (see the
counterexample): a source key can become unlocked while a dependent still
references it, because `block_key` overwrites the single lock slot. -/
theorem C3_lock_entries_sound (s : SysState) (h : ReachableNS s) :
    LockInv s := by
  induction h with
  | init =>
    exact ⟨fun k b hkb => by simp [initState, dget] at hkb,
      fun k b hkb => by simp [initState, dget] at hkb⟩
  | step hs hstep ih =>
    rename_i s s'
    obtain ⟨ihd, ihm⟩ := ih
    have hleg := reachable_legal (reachableNS_reachable hs)
    cases hstep with
    | importCsv cfg k fp t hk h =>
      obtain ⟨_, _, _, df', _, rfl⟩ := importCsvData_ok h
      exact ⟨ihd, ihm⟩
    | createModel cfg mk dk hn hk h =>
      obtain ⟨dataInst, errs, hdata, hmknone, hmblocked, herrs, rfl⟩ :=
        createNoiseModel_ok h
      have hmk : validate_instance_name mk = mk :=
        validate_instance_name_eq_of_no_space hk
      rw [hmk]
      constructor
      · intro k b hkb
        simp only [KeyBlocker.block_key] at hkb
        rw [dget_set] at hkb
        by_cases hkd : k = dk
        · rw [if_pos hkd] at hkb
          cases hkb
          exact ⟨⟨dk⟩, dget_set_self _ _ _, hkd.symm⟩
        · rw [if_neg hkd] at hkb
          obtain ⟨inst, hinst, hsrcinst⟩ := ihd k b hkb
          have hbmk : b ≠ mk := by
            intro hb
            rw [hb, hmknone] at hinst
            exact Option.noConfusion hinst
          refine ⟨inst, ?_, hsrcinst⟩
          show dget (dset s.noise_models mk ⟨dk⟩) b = some inst
          rw [dget_set_ne _ _ hbmk]
          exact hinst
      · intro k b hkb
        exact ihm k b hkb
    | createSim mk sk hk h =>
      obtain ⟨hm, hsknone, rfl⟩ := createSimulator_ok h
      have hsk : validate_instance_name sk = sk :=
        validate_instance_name_eq_of_no_space hk
      rw [hsk]
      constructor
      · intro k b hkb
        exact ihd k b hkb
      · intro k b hkb
        simp only [KeyBlocker.block_key] at hkb
        rw [dget_set] at hkb
        by_cases hkm : k = mk
        · rw [if_pos hkm] at hkb
          cases hkb
          exact ⟨⟨mk⟩, dget_set_self _ _ _, hkm.symm⟩
        · rw [if_neg hkm] at hkb
          obtain ⟨inst, hinst, hsrcinst⟩ := ihm k b hkb
          have hbsk : b ≠ sk := by
            intro hb
            rw [hb, hsknone] at hinst
            exact Option.noConfusion hinst
          refine ⟨inst, ?_, hsrcinst⟩
          show dget (dset s.simulators sk ⟨mk⟩) b = some inst
          rw [dget_set_ne _ _ hbsk]
          exact hinst
    | removeData k h =>
      obtain ⟨_, rfl⟩ := removeNoiseDataInstance_ok h
      exact ⟨ihd, ihm⟩
    | removeModel k h =>
      obtain ⟨inst, hinst, hsome, rfl⟩ := removeNoiseModelInstance_ok h
      constructor
      · intro k' b hkb
        have hkb' : dget (derase s.blocker.noise_data_blocked
            inst.data_source) k' = some b := hkb
        by_cases hks : k' = inst.data_source
        · rw [hks, dget_erase_self _ hleg.2.2.2.1] at hkb'
          exact Option.noConfusion hkb'
        · rw [dget_erase_ne _ hks] at hkb'
          obtain ⟨inst_b, hbm, hbsrc⟩ := ihd k' b hkb'
          have hbk : b ≠ k := by
            intro hb
            rw [hb, hinst] at hbm
            cases hbm
            exact hks hbsrc.symm
          refine ⟨inst_b, ?_, hbsrc⟩
          show dget (derase s.noise_models k) b = some inst_b
          rw [dget_erase_ne _ hbk]
          exact hbm
      · intro k' b hkb
        exact ihm k' b hkb
    | removeSim k h =>
      obtain ⟨inst, hinst, hsome, rfl⟩ := removeSimulatorInstance_ok h
      constructor
      · intro k' b hkb
        exact ihd k' b hkb
      · intro k' b hkb
        have hkb' : dget (derase s.blocker.noise_models_blocked
            inst.noise_model_source) k' = some b := hkb
        by_cases hks : k' = inst.noise_model_source
        · rw [hks, dget_erase_self _ hleg.2.2.2.2] at hkb'
          exact Option.noConfusion hkb'
        · rw [dget_erase_ne _ hks] at hkb'
          obtain ⟨inst_b, hbm, hbsrc⟩ := ihm k' b hkb'
          have hbk : b ≠ k := by
            intro hb
            rw [hb, hinst] at hbm
            cases hbm
            exact hks hbsrc.symm
          refine ⟨inst_b, ?_, hbsrc⟩
          show dget (derase s.simulators k) b = some inst_b
          rw [dget_erase_ne _ hbk]
          exact hbm

/-- C3, witness: the sound direction at the concrete reachable state
`sC`. -/
theorem C3_lock_entries_sound_witness : LockInv sC :=
  C3_lock_entries_sound sC reachableNS_sC

theorem importCsvData_run {cfg : PipelineConfig} {k fp : String}
    {t : DataFrame} {s : SysState} {df' : DataFrame}
    (h1 : dget s.noise_data (validate_instance_name k) = none)
    (h2 : dget s.blocker.noise_data_blocked (validate_instance_name k) = none)
    (h3 : validate_file_type fp = none)
    (h4 : modify_dataframe_data cfg
      (add_additional_columns cfg
        (remove_unnecessary_collumns cfg.notRequired t)) = some df') :
    importCsvData cfg k fp t s = .ok { s with noise_data :=
      (dset s.noise_data (validate_instance_name k) ⟨fp, fp, df'⟩) } := by
  have hc1 : check_instance_key (validate_instance_name k) false s.noise_data
      "noise data instance" = none := check_instance_key_false_none.mpr h1
  have hc2 : s.blocker.check_blocked_key (validate_instance_name k)
      .noise_data = none := check_blocked_key_none.mpr h2
  simp [importCsvData, hc1, hc2, h3, h4]

theorem createNoiseModel_run {cfg : NoiseConfig} {mk dk : String}
    {hn : Bool} {s : SysState} {dataInst : NoiseDataInstance}
    {errs : List Attachment}
    (hdata : dget s.noise_data dk = some dataInst)
    (hmk : dget s.noise_models mk = none)
    (hblk : dget s.blocker.noise_models_blocked mk = none)
    (herrs : (if hn then buildNoiseModelErrors cfg dataInst.dataframe
              else some []) = some errs) :
    createNoiseModel cfg mk dk hn s = .ok { s with
      noise_models := (dset s.noise_models (validate_instance_name mk) ⟨dk⟩),
      blocker := (s.blocker.block_key dk .noise_data
        (validate_instance_name mk)) } := by
  have hc1 : check_instance_key dk true s.noise_data "noise data instance"
      = none := check_instance_key_true_none.mpr (by simp [hdata])
  have hc2 : check_instance_key mk false s.noise_models
      "noise model instance" = none := check_instance_key_false_none.mpr hmk
  have hc3 : s.blocker.check_blocked_key mk .noise_models = none :=
    check_blocked_key_none.mpr hblk
  simp [createNoiseModel, hc1, hc2, hc3, hdata, herrs]

theorem createSimulator_run {mk sk : String} {s : SysState}
    (hm : (dget s.noise_models mk).isSome)
    (hsk : dget s.simulators sk = none) :
    createSimulator mk sk s = .ok { s with
      simulators := (dset s.simulators (validate_instance_name sk) ⟨mk⟩),
      blocker := (s.blocker.block_key mk .noise_models
        (validate_instance_name sk)) } := by
  have hc1 : check_instance_key mk true s.noise_models
      "noise model instance" = none := check_instance_key_true_none.mpr hm
  have hc2 : check_instance_key sk false s.simulators "simulator instance"
      = none := check_instance_key_false_none.mpr hsk
  simp [createSimulator, hc1, hc2]

theorem removeSimulatorInstance_run {k : String} {s : SysState}
    {instance_ : SimulatorInstance}
    (hinst : dget s.simulators k = some instance_)
    (hsrc : (dget s.blocker.noise_models_blocked
      instance_.noise_model_source).isSome) :
    removeSimulatorInstance k s = .ok { s with
      simulators := (derase s.simulators k),
      blocker := ({ s.blocker with noise_models_blocked :=
        (derase s.blocker.noise_models_blocked
          instance_.noise_model_source) }) } := by
  have hc : check_instance_key k true s.simulators "simulator instance"
      = none := check_instance_key_true_none.mpr (by simp [hinst])
  simp [removeSimulatorInstance, hc, hinst, KeyBlocker.unblock_key,
    KeyBlocker.blockedKeys, dmem, hsrc]

/-! ### Claim C4 -/

/-- C4, counterexample: in the reachable state `sM1` a model is registered
under `"m_1"`; calling `create_noise_model("m 1", "d2")` — an input key
differing from `"m_1"` only by a space — does not fail with a
duplicate-key error: the raw key passes the duplicate check, is normalized
afterwards, and the existing instance is silently overwritten. -/
theorem C4_counterexample :
    Reachable sM1 ∧
    dget sM1.noise_models "m_1" = some ⟨"d1"⟩ ∧
    validate_instance_name "m 1" = "m_1" ∧
    createNoiseModel cfgN0 "m 1" "d2" true sM1 = .ok sM2 ∧
    dget sM2.noise_models "m_1" = some ⟨"d2"⟩ :=
  ⟨reachable_sM1, by decide, by decide, step_to_sM2, by decide⟩

/-- C4 (amended): every create/import operation registers its instance
under the input key with spaces rewritten to underscores (the notification
is part of the out-of-scope logging layer).  `import_csv_data` normalizes
before checking, so it fails with the duplicate-key error precisely when
the normalized key already names a data instance — including collisions
that differ from the existing key only by spaces.  `create_noise_model` and
`create_simulator`, however, run their duplicate check on the raw input
key and normalize afterwards: they fail with the duplicate-key error when
the raw key is taken, but an input key that collides with an existing key
only after normalization passes the check and silently overwrites the
existing instance (see the counterexample). -/
theorem C4_duplicate_checks :
    (∀ (cfg : PipelineConfig) (k fp : String) (t : DataFrame) (s : SysState),
      (dget s.noise_data (validate_instance_name k)).isSome →
      importCsvData cfg k fp t s =
        .error (.instanceKeyExists "noise data instance"
          (validate_instance_name k))) ∧
    (∀ (cfg : PipelineConfig) (k fp : String) (t : DataFrame) (s s' : SysState),
      importCsvData cfg k fp t s = .ok s' →
      (dget s'.noise_data (validate_instance_name k)).isSome) ∧
    (∀ (cfg : NoiseConfig) (mk dk : String) (hn : Bool) (s : SysState),
      (dget s.noise_data dk).isSome →
      (dget s.noise_models mk).isSome →
      createNoiseModel cfg mk dk hn s =
        .error (.instanceKeyExists "noise model instance" mk)) ∧
    (∀ (cfg : NoiseConfig) (mk dk : String) (hn : Bool) (s s' : SysState),
      createNoiseModel cfg mk dk hn s = .ok s' →
      dget s'.noise_models (validate_instance_name mk) = some ⟨dk⟩) ∧
    (∀ (mk sk : String) (s : SysState),
      (dget s.noise_models mk).isSome →
      (dget s.simulators sk).isSome →
      createSimulator mk sk s =
        .error (.instanceKeyExists "simulator instance" sk)) ∧
    (∀ (mk sk : String) (s s' : SysState),
      createSimulator mk sk s = .ok s' →
      dget s'.simulators (validate_instance_name sk) = some ⟨mk⟩) := by
  refine ⟨?_, ?_, ?_, ?_, ?_, ?_⟩
  · intro cfg k fp t s hdup
    simp [importCsvData, check_instance_key, dmem, hdup]
  · intro cfg k fp t s s' h
    obtain ⟨_, _, _, df', _, rfl⟩ := importCsvData_ok h
    show (dget (dset s.noise_data (validate_instance_name k) _)
      (validate_instance_name k)).isSome
    rw [dget_set_self]
    rfl
  · intro cfg mk dk hn s hdata hdup
    simp [createNoiseModel, check_instance_key, dmem, hdata, hdup]
  · intro cfg mk dk hn s s' h
    obtain ⟨dataInst, errs, _, _, _, _, rfl⟩ := createNoiseModel_ok h
    show dget (dset s.noise_models (validate_instance_name mk) ⟨dk⟩)
      (validate_instance_name mk) = some ⟨dk⟩
    exact dget_set_self _ _ _
  · intro mk sk s hm hdup
    simp [createSimulator, check_instance_key, dmem, hm, hdup]
  · intro mk sk s s' h
    obtain ⟨_, _, rfl⟩ := createSimulator_ok h
    show dget (dset s.simulators (validate_instance_name sk) ⟨mk⟩)
      (validate_instance_name sk) = some ⟨mk⟩
    exact dget_set_self _ _ _

/-- C4, witness: the import duplicate check fires on a space-variant
collision at `sM1` (the input `"d 1"` registers as `"d_1"`; importing
`"d 1"` against a registry holding `"d_1"` fails), and the model duplicate
check fires on the raw key at `sB`. -/
theorem C4_duplicate_checks_witness :
    importCsvData cfgP0 "d 1" "cal3.csv" tbl0
        ⟨[("d_1", dInst)], [], [], ⟨[], []⟩⟩ =
      .error (.instanceKeyExists "noise data instance"
        (validate_instance_name "d 1")) ∧
    createNoiseModel cfgN0 "m1" "d1" true sB =
      .error (.instanceKeyExists "noise model instance" "m1") :=
  ⟨C4_duplicate_checks.1 cfgP0 "d 1" "cal3.csv" tbl0
      ⟨[("d_1", dInst)], [], [], ⟨[], []⟩⟩ (by decide),
   C4_duplicate_checks.2.2.1 cfgN0 "m1" "d1" true sB (by decide) (by decide)⟩

/-! ### Claim C5 -/

/-- C5: key reuse.  In each instance category, creating an instance under a
key `k`, removing that instance (under its registered, normalized key), and
creating again under `k` succeeds.  If instead `k` is still present in the
category's lock table at the time of the second creation (with the
instance itself already removed), the creation fails with the
`BlockedKeyError` naming the blocker, mutating no registry or lock table
(the error return happens before any mutation); simulator keys have no lock
table, so no blocked-key case arises for them. -/
theorem C5_key_reuse :
    (∀ (cfg : PipelineConfig) (k fp : String) (t : DataFrame) (s s1 : SysState),
      Reachable s → importCsvData cfg k fp t s = .ok s1 →
      ∃ s2, removeNoiseDataInstance (validate_instance_name k) s1 = .ok s2 ∧
        ∃ s3, importCsvData cfg k fp t s2 = .ok s3) ∧
    (∀ (cfg : NoiseConfig) (mk dk : String) (hn : Bool) (s s1 : SysState),
      Reachable s → createNoiseModel cfg mk dk hn s = .ok s1 →
      ∃ s2, removeNoiseModelInstance (validate_instance_name mk) s1 = .ok s2 ∧
        ∃ s3, createNoiseModel cfg mk dk hn s2 = .ok s3) ∧
    (∀ (mk sk : String) (s s1 : SysState),
      Reachable s → createSimulator mk sk s = .ok s1 →
      ∃ s2, removeSimulatorInstance (validate_instance_name sk) s1 = .ok s2 ∧
        ∃ s3, createSimulator mk sk s2 = .ok s3) ∧
    (∀ (cfg : PipelineConfig) (k fp : String) (t : DataFrame) (s : SysState)
        (b : String),
      Reachable s → dget s.noise_data k = none →
      dget s.blocker.noise_data_blocked k = some b →
      importCsvData cfg k fp t s =
        .error (.blockedReferenceKey k "noise data" "noise model" b)) ∧
    (∀ (cfg : NoiseConfig) (mk dk : String) (hn : Bool) (s : SysState)
        (b : String),
      Reachable s → (dget s.noise_data dk).isSome →
      dget s.noise_models mk = none →
      dget s.blocker.noise_models_blocked mk = some b →
      createNoiseModel cfg mk dk hn s =
        .error (.blockedReferenceKey mk "noise model" "simulator" b)) := by
  refine ⟨?_, ?_, ?_, ?_, ?_⟩
  · -- data: create, remove, create again
    intro cfg k fp t s s1 _hreach h
    obtain ⟨hd1, hb1, hf, df', hdf, hs1⟩ := importCsvData_ok h
    have hself : (dget s1.noise_data (validate_instance_name k)).isSome := by
      rw [hs1]
      show (dget (dset s.noise_data (validate_instance_name k)
        ⟨fp, fp, df'⟩) (validate_instance_name k)).isSome
      rw [dget_set_self]
      rfl
    have hrem := removeNoiseDataInstance_run hself
    refine ⟨_, hrem, _, importCsvData_run ?_ ?_ hf hdf⟩
    · show dget (derase s1.noise_data (validate_instance_name k))
        (validate_instance_name k) = none
      rw [hs1]
      show dget (derase (dset s.noise_data (validate_instance_name k)
        ⟨fp, fp, df'⟩) (validate_instance_name k))
        (validate_instance_name k) = none
      rw [derase_dset_of_none _ _ _ hd1]
      exact hd1
    · show dget s1.blocker.noise_data_blocked (validate_instance_name k)
        = none
      rw [hs1]
      exact hb1
  · -- model: create, remove, create again
    intro cfg mk dk hn s s1 hreach h
    have hleg := reachable_legal hreach
    obtain ⟨dataInst, errs, hdata, hmknone, hmblk, herrs, hs1⟩ :=
      createNoiseModel_ok h
    have hself : dget s1.noise_models (validate_instance_name mk)
        = some ⟨dk⟩ := by
      rw [hs1]
      exact dget_set_self _ _ _
    have hsrc : (dget s1.blocker.noise_data_blocked dk).isSome := by
      rw [hs1]
      show (dget (dset s.blocker.noise_data_blocked dk
        (validate_instance_name mk)) dk).isSome
      rw [dget_set_self]
      rfl
    have hrem := removeNoiseModelInstance_run hself hsrc
    refine ⟨_, hrem, _, createNoiseModel_run ?_ ?_ ?_ herrs⟩
    · show dget s1.noise_data dk = some dataInst
      rw [hs1]
      exact hdata
    · show dget (derase s1.noise_models (validate_instance_name mk)) mk = none
      rw [hs1]
      show dget (derase (dset s.noise_models (validate_instance_name mk) ⟨dk⟩)
        (validate_instance_name mk)) mk = none
      rw [derase_dset]
      by_cases hmkn : mk = validate_instance_name mk
      · rw [← hmkn]
        exact dget_erase_self mk hleg.2.1
      · rw [dget_erase_ne _ hmkn]
        exact hmknone
    · show dget s1.blocker.noise_models_blocked mk = none
      rw [hs1]
      exact hmblk
  · -- simulator: create, remove, create again
    intro mk sk s s1 hreach h
    have hleg := reachable_legal hreach
    obtain ⟨hm, hsknone, hs1⟩ := createSimulator_ok h
    have hself : dget s1.simulators (validate_instance_name sk)
        = some ⟨mk⟩ := by
      rw [hs1]
      exact dget_set_self _ _ _
    have hsrc : (dget s1.blocker.noise_models_blocked mk).isSome := by
      rw [hs1]
      show (dget (dset s.blocker.noise_models_blocked mk
        (validate_instance_name sk)) mk).isSome
      rw [dget_set_self]
      rfl
    have hrem := removeSimulatorInstance_run hself hsrc
    refine ⟨_, hrem, _, createSimulator_run ?_ ?_⟩
    · show (dget s1.noise_models mk).isSome
      rw [hs1]
      exact hm
    · show dget (derase s1.simulators (validate_instance_name sk)) sk = none
      rw [hs1]
      show dget (derase (dset s.simulators (validate_instance_name sk) ⟨mk⟩)
        (validate_instance_name sk)) sk = none
      rw [derase_dset]
      by_cases hskn : sk = validate_instance_name sk
      · rw [← hskn]
        exact dget_erase_self sk hleg.2.2.1
      · rw [dget_erase_ne _ hskn]
        exact hsknone
  · -- data key still locked at re-creation time
    intro cfg k fp t s b hreach hknone hkb
    have hnosp := reachable_noSpace hreach
    have hks : has_space k = false := noSpaceList_key hnosp.2.2.2.1 hkb
    have hkk : validate_instance_name k = k :=
      validate_instance_name_eq_of_no_space hks
    have hc1 : check_instance_key k false s.noise_data
        "noise data instance" = none := check_instance_key_false_none.mpr hknone
    simp [importCsvData, hkk, hc1, KeyBlocker.check_blocked_key,
      KeyBlocker.blockedKeys, InstanceType.selfType, InstanceType.blockerType,
      hkb]
  · -- model key still locked at re-creation time
    intro cfg mk dk hn s b hreach hdata hmknone hkb
    have hnosp := reachable_noSpace hreach
    have hc1 : check_instance_key dk true s.noise_data
        "noise data instance" = none := check_instance_key_true_none.mpr hdata
    have hc2 : check_instance_key mk false s.noise_models
        "noise model instance" = none := check_instance_key_false_none.mpr hmknone
    simp [createNoiseModel, hc1, hc2, KeyBlocker.check_blocked_key,
      KeyBlocker.blockedKeys, InstanceType.selfType, InstanceType.blockerType,
      hkb]

/-- C5, witness: the create–remove–create sequence for the data category
from the initial state, and the blocked re-import: after removing `"d1"`
from `sB` while the model `"m1"` still locks it, importing under `"d1"`
again fails with the `BlockedKeyError` naming `"m1"`. -/
theorem C5_key_reuse_witness :
    (∃ s2, removeNoiseDataInstance (validate_instance_name "d1") sA = .ok s2 ∧
      ∃ s3, importCsvData cfgP0 "d1" "cal.csv" tbl0 s2 = .ok s3) ∧
    importCsvData cfgP0 "d1" "cal.csv" tbl0
        ⟨[], [("m1", ⟨"d1"⟩)], [], ⟨[("d1", "m1")], []⟩⟩ =
      .error (.blockedReferenceKey "d1" "noise data" "noise model" "m1") :=
  ⟨C5_key_reuse.1 cfgP0 "d1" "cal.csv" tbl0 initState sA .init step_to_sA,
   C5_key_reuse.2.2.2.1 cfgP0 "d1" "cal.csv" tbl0
     ⟨[], [("m1", ⟨"d1"⟩)], [], ⟨[("d1", "m1")], []⟩⟩ "m1"
     (.step reachable_sB (.removeData "d1" (by decide)))
     (by decide) (by decide)⟩

/-! ### Properties of the multi-value-column loop -/

theorem parseFragments_ts (fs : List String) (m0 : Dict Int PyFloat)
    (ts0 : List Int) :
    parseFragments fs m0 ts0 =
      (parseFragments fs m0 []).map (fun p => (p.1, ts0 ++ p.2)) := by
  induction fs generalizing m0 ts0 with
  | nil => simp [parseFragments]
  | cons f fs ih =>
    cases hf : parseFragment f with
    | none => simp [parseFragments, hf]
    | some tv =>
      obtain ⟨t, v⟩ := tv
      simp only [parseFragments, hf]
      rw [ih (dset m0 t v) (ts0 ++ [t]), ih (dset m0 t v) ([] ++ [t])]
      cases parseFragments fs (dset m0 t v) [] with
      | none => simp
      | some p => simp

theorem processColumns_append (cfg : PipelineConfig) (colNames : List String)
    (l1 l2 : List String) (st : RowState) :
    processColumns cfg colNames (l1 ++ l2) st =
      match processColumns cfg colNames l1 st with
      | some st1 => processColumns cfg colNames l2 st1
      | none => none := by
  induction l1 generalizing st with
  | nil => simp [processColumns]
  | cons c l1 ih =>
    simp only [List.cons_append, processColumns]
    cases processColumn cfg colNames st c with
    | none => rfl
    | some st1 => exact ih st1

/-- Inversion for one processed column: either the column was skipped
(absent from the frame or `NaN` cell), or its cell was a string that parsed
and the row state was updated accordingly. -/
theorem processColumn_cases {cfg : PipelineConfig} {colNames : List String}
    {st : RowState} {c : String} {st' : RowState}
    (h : processColumn cfg colNames st c = some st') :
    (st' = st ∧ (colNames.contains c = false ∨
      (getCell st.row c).isNA = true)) ∨
    (∃ s m ts, colNames.contains c = true ∧ getCell st.row c = .str s ∧
      parseFragments (pySplit s ';') []
        (if st.are_neighbors_found then [] else st.found_neighbors)
        = some (m, ts) ∧
      st' = ⟨dset (dset st.row c (.mapping m)) cfg.neighborCol
        (.qubitList (if st.are_neighbors_found then st.found_neighbors
          else ts)),
        (if st.are_neighbors_found then st.found_neighbors else ts),
        true⟩) := by
  simp only [processColumn] at h
  split at h
  next hcont =>
    split at h
    next hna =>
      cases h
      exact Or.inl ⟨rfl, Or.inr hna⟩
    next hna =>
      split at h
      next sv hcl =>
        split at h
        next p m ts hpf =>
          cases h
          exact Or.inr ⟨sv, m, ts, hcont, hcl, hpf, rfl⟩
        next => exact absurd h (by simp)
      next hne => exact absurd h (by simp)
  next hcont =>
    cases h
    exact Or.inl ⟨rfl, Or.inl (by simpa using hcont)⟩

/-- The forward direction of skipping: an absent column or a `NaN` cell
leaves the state unchanged. -/
theorem processColumn_skip_of {cfg : PipelineConfig} {colNames : List String}
    {st : RowState} {c : String}
    (h : colNames.contains c = false ∨ (getCell st.row c).isNA = true) :
    processColumn cfg colNames st c = some st := by
  unfold processColumn
  rcases h with h | h
  · rw [h]
    simp
  · by_cases hcont : colNames.contains c
    · rw [if_pos hcont, if_pos h]
    · rw [if_neg hcont]

/-- Columns that are absent from the frame or whose cell is `NaN` are
skipped, leaving the row state unchanged. -/
theorem processColumns_skip (cfg : PipelineConfig) (colNames : List String)
    (cols : List String) (st : RowState)
    (h : ∀ c ∈ cols, colNames.contains c = false ∨
      (getCell st.row c).isNA = true) :
    processColumns cfg colNames cols st = some st := by
  induction cols with
  | nil => rfl
  | cons c cols ih =>
    have hcol : processColumn cfg colNames st c = some st :=
      processColumn_skip_of (h c (List.mem_cons_self c cols))
    simp only [processColumns, hcol]
    exact ih (fun c' hc' => h c' (List.mem_cons_of_mem c hc'))

/-- Once neighbors have been found for a row, later columns never change
`found_neighbors` or the `neighboring_qubits` cell. -/
theorem processColumns_found (cfg : PipelineConfig) (colNames : List String)
    (cols : List String) (st st' : RowState)
    (hnb : ∀ c ∈ cols, ¬ c = cfg.neighborCol)
    (hare : st.are_neighbors_found = true)
    (hcell : getCell st.row cfg.neighborCol = .qubitList st.found_neighbors)
    (h : processColumns cfg colNames cols st = some st') :
    st'.are_neighbors_found = true ∧
    st'.found_neighbors = st.found_neighbors ∧
    getCell st'.row cfg.neighborCol = .qubitList st.found_neighbors := by
  induction cols generalizing st with
  | nil =>
    cases h
    exact ⟨hare, rfl, hcell⟩
  | cons c cols ih =>
    simp only [processColumns] at h
    cases hpc : processColumn cfg colNames st c with
    | none => rw [hpc] at h; exact Option.noConfusion h
    | some st1 =>
      rw [hpc] at h
      have hnb' := fun c' hc' => hnb c' (List.mem_cons_of_mem c hc')
      rcases processColumn_cases hpc with ⟨rfl, _⟩ |
        ⟨sv, m, ts, hcont, hcl, hpf, hst1⟩
      · exact ih st1 hnb' hare hcell h
      · simp only [hare, eq_self_iff_true, if_true] at hst1
        subst hst1
        exact ih ⟨dset (dset st.row c (.mapping m)) cfg.neighborCol
            (.qubitList st.found_neighbors), st.found_neighbors, true⟩
          hnb' rfl (by unfold getCell; rw [dget_set_self]; rfl) h

/-- Cells of columns that are neither processed nor the
`neighboring_qubits` column are never written. -/
theorem processColumns_untouched (cfg : PipelineConfig)
    (colNames : List String) (cols : List String) (st st' : RowState)
    (x : String) (hx : x ∉ cols) (hxn : ¬ x = cfg.neighborCol)
    (h : processColumns cfg colNames cols st = some st') :
    getCell st'.row x = getCell st.row x := by
  induction cols generalizing st with
  | nil => cases h; rfl
  | cons c cols ih =>
    have hxc : ¬ x = c := fun hh => hx (hh ▸ List.mem_cons_self c cols)
    have hxcols : x ∉ cols := fun hh => hx (List.mem_cons_of_mem c hh)
    simp only [processColumns] at h
    cases hpc : processColumn cfg colNames st c with
    | none => rw [hpc] at h; exact Option.noConfusion h
    | some st1 =>
      rw [hpc] at h
      have hkeep : getCell st1.row x = getCell st.row x := by
        rcases processColumn_cases hpc with ⟨rfl, _⟩ | ⟨sv, m, ts, _, _, _, rfl⟩
        · rfl
        · show getCell (dset (dset st.row c _) cfg.neighborCol _) x = _
          unfold getCell
          rw [dget_set_ne _ _ hxn, dget_set_ne _ _ hxc]
      rw [ih st1 hxcols h]
      exact hkeep

/-- From the initial per-row state, the final `neighboring_qubits` cell is
determined by the first configured column that is present and has a
non-`NaN` cell. -/
theorem processColumns_initial (cfg : PipelineConfig) (colNames : List String)
    (cols : List String) (r : Rowt) (st' : RowState)
    (hnb : ∀ c ∈ cols, ¬ c = cfg.neighborCol)
    (h : processColumns cfg colNames cols ⟨r, [], false⟩ = some st') :
    match cols.find? (fun c => colNames.contains c && !(getCell r c).isNA) with
    | some c => ∃ s m ts, getCell r c = .str s ∧
        parseFragments (pySplit s ';') [] [] = some (m, ts) ∧
        getCell st'.row cfg.neighborCol = .qubitList ts
    | none => st' = ⟨r, [], false⟩ := by
  induction cols with
  | nil =>
    cases h
    rfl
  | cons c cols ih =>
    simp only [processColumns] at h
    cases hpc : processColumn cfg colNames ⟨r, [], false⟩ c with
    | none => rw [hpc] at h; exact Option.noConfusion h
    | some st1 =>
      rw [hpc] at h
      rcases processColumn_cases hpc with ⟨rfl, hskip⟩ |
        ⟨s, m, ts, hcont, hcl, hpf, hst1⟩
      · have hcond : (colNames.contains c && !(getCell r c).isNA) = false := by
          rcases hskip with hh | hh
          · rw [hh, Bool.false_and]
          · rw [hh, Bool.not_true, Bool.and_false]
        rw [@List.find?_cons_of_neg _
          (fun x => colNames.contains x && !(getCell r x).isNA) c cols
          (by simp only [hcond]; exact Bool.false_ne_true)]
        exact ih (fun c' hc' => hnb c' (List.mem_cons_of_mem c hc')) h
      · have hcond : (colNames.contains c && !(getCell r c).isNA) = true := by
          rw [hcont, hcl]
          rfl
        rw [@List.find?_cons_of_pos _
          (fun x => colNames.contains x && !(getCell r x).isNA) c cols hcond]
        have hpf' : parseFragments (pySplit s ';') [] [] = some (m, ts) := hpf
        have hst1' : st1 = ⟨dset (dset r c (.mapping m)) cfg.neighborCol
            (.qubitList ts), ts, true⟩ := hst1
        subst hst1'
        have hfound := processColumns_found cfg colNames cols _ st'
          (fun c' hc' => hnb c' (List.mem_cons_of_mem c hc')) rfl
          (by unfold getCell; rw [dget_set_self]; rfl) h
        exact ⟨s, m, ts, hcl, hpf', hfound.2.2⟩

/-- `modify_dataframe_data` row by row. -/
theorem modifyRows_get (cfg : PipelineConfig) (colNames : List String) :
    ∀ (rs rs' : List Rowt), modifyRows cfg colNames rs = some rs' →
      ∀ (i : Nat) (r : Rowt), rs[i]? = some r →
        ∃ r', rs'[i]? = some r' ∧ modifyRow cfg colNames r = some r' := by
  intro rs
  induction rs with
  | nil => intro rs' h i r hr; simp at hr
  | cons r0 rs ih =>
    intro rs' h i r hr
    simp only [modifyRows] at h
    cases hm0 : modifyRow cfg colNames r0 with
    | none => rw [hm0] at h; exact Option.noConfusion h
    | some r0' =>
      cases hms : modifyRows cfg colNames rs with
      | none => rw [hm0, hms] at h; exact Option.noConfusion h
      | some rest' =>
        rw [hm0, hms] at h
        cases h
        cases i with
        | zero =>
          simp only [List.getElem?_cons_zero, Option.some.injEq] at hr
          subst hr
          exact ⟨r0', by simp, hm0⟩
        | succ i =>
          simp only [List.getElem?_cons_succ] at hr
          obtain ⟨r', hr', hmr⟩ := ih rest' hms i r hr
          exact ⟨r', by simpa using hr', hmr⟩

/-! ### Claim C9 -/

/-- C9: `validate_qubit_number` accepts exactly the indices `0 ≤ q ≤ n-1`
for a table with `n` qubit rows: `q = n-1` succeeds, `q = n` fails with the
out-of-range error reporting the maximum index `n-1`, and `q < 0` fails
with the negative-qubit error.  The function is pure, so a failed
validation changes no state. -/
theorem C9_qubit_bounds (inst : NoiseDataInstance) (q : Int) :
    (inst.validate_qubit_number q = none ↔
      0 ≤ q ∧ q ≤ (inst.get_qubit_count : Int) - 1) ∧
    (1 ≤ inst.get_qubit_count →
      inst.validate_qubit_number ((inst.get_qubit_count : Int) - 1) = none) ∧
    (inst.validate_qubit_number (inst.get_qubit_count : Int) =
      some (.largeQubitNumber (inst.get_qubit_count : Int)
        ((inst.get_qubit_count : Int) - 1))) ∧
    (q < 0 → inst.validate_qubit_number q = some (.negativeQubitNumber q)) := by
  have hn : (0 : Int) ≤ (inst.get_qubit_count : Int) := Int.ofNat_nonneg _
  unfold NoiseDataInstance.validate_qubit_number
  dsimp only
  refine ⟨?_, ?_, ?_, ?_⟩
  · constructor
    · intro h
      split_ifs at h with h1 h2
      all_goals first
      | exact Option.noConfusion h
      | omega
    · intro h
      rw [if_neg (by omega), if_neg (by omega)]
  · intro h1
    rw [if_neg (by omega), if_neg (by omega)]
  · rw [if_neg (by omega), if_pos (by omega)]
  · intro h
    rw [if_pos h]

/-! ### Claim C7 -/

/-- C7: for every row of the transformed table, `neighboring_qubits` holds
exactly the neighbor indices parsed from the first configured multi-value
column that is present in the table with a non-empty (non-`NaN`) cell in
that row, in fragment order; later multi-value columns of the same row
never change it, and a row all of whose multi-value cells are empty keeps
its `neighboring_qubits` cell unchanged (unset).  The hypothesis that the
`neighboring_qubits` column is not itself a configured multi-value column
reflects the configuration files. -/
theorem C7_neighbor_derivation (cfg : PipelineConfig) (df df' : DataFrame)
    (hnb : cfg.neighborCol ∉ cfg.multiCols)
    (h : modify_dataframe_data cfg df = some df') :
    ∀ (i : Nat) (r : Rowt), df.rows[i]? = some r →
      ∃ r', df'.rows[i]? = some r' ∧
        match cfg.multiCols.find? (fun c => df.colNames.contains c
            && !(getCell r c).isNA) with
        | some c => ∃ s m ts, getCell r c = .str s ∧
            parse_multi_value s = some (m, ts) ∧
            getCell r' cfg.neighborCol = .qubitList ts
        | none => getCell r' cfg.neighborCol = getCell r cfg.neighborCol := by
  intro i r hr
  unfold modify_dataframe_data at h
  cases hrows : modifyRows cfg df.colNames df.rows with
  | none => rw [hrows] at h; exact Option.noConfusion h
  | some rs' =>
    rw [hrows] at h
    simp only [Option.map_some', Option.some.injEq] at h
    obtain ⟨r', hr', hmr⟩ := modifyRows_get cfg df.colNames df.rows rs' hrows i r hr
    refine ⟨r', by rw [← h]; exact hr', ?_⟩
    unfold modifyRow at hmr
    cases hpc : processColumns cfg df.colNames cfg.multiCols
        ⟨r, [], false⟩ with
    | none => rw [hpc] at hmr; exact Option.noConfusion hmr
    | some st' =>
      rw [hpc] at hmr
      simp only [Option.map_some', Option.some.injEq] at hmr
      subst hmr
      have hmain := processColumns_initial cfg df.colNames cfg.multiCols r st'
        (fun c hc hh => hnb (hh ▸ hc)) hpc
      cases hfind : cfg.multiCols.find? (fun c => df.colNames.contains c
          && !(getCell r c).isNA) with
      | some c =>
        rw [hfind] at hmain
        obtain ⟨s, m, ts, hcl, hpf, hcell⟩ := hmain
        exact ⟨s, m, ts, hcl, hpf, hcell⟩
      | none =>
        rw [hfind] at hmain
        rw [hmain]

/-- The `neighboring_qubits` claim is witnessed on the concrete two-column
frame `df6`; its row 2 has `"1:0.5"` in the first configured column. -/
def cfg6 : PipelineConfig := ⟨[], ["A", "B"], "N", "RT"⟩

def df6 : DataFrame :=
  ⟨["A", "B", "N"],
   [[], [], [("A", .str "1:0.5"), ("B", .str "3:0.01;5:0.02")]]⟩

/-- The transform of `df6`. -/
def df6' : DataFrame :=
  ⟨["A", "B", "N"],
   [[], [],
    [("A", .mapping [(1, ⟨1, 2⟩)]), ("B", .mapping [(3, ⟨1, 100⟩), (5, ⟨1, 50⟩)]),
     ("N", .qubitList [1])]]⟩

/-- C7, witness: at row 2 of `df6`, the first non-empty configured column
is `"A"` and the transformed row's `neighboring_qubits` is `[1]`. -/
theorem C7_neighbor_derivation_witness :
    ∃ r', df6'.rows[2]? = some r' ∧
      match cfg6.multiCols.find? (fun c => df6.colNames.contains c
          && !(getCell [("A", Cell.str "1:0.5"),
            ("B", Cell.str "3:0.01;5:0.02")] c).isNA) with
      | some c => ∃ s m ts,
          getCell [("A", Cell.str "1:0.5"),
            ("B", Cell.str "3:0.01;5:0.02")] c = .str s ∧
          parse_multi_value s = some (m, ts) ∧
          getCell r' cfg6.neighborCol = .qubitList ts
      | none => getCell r' cfg6.neighborCol =
          getCell [("A", Cell.str "1:0.5"),
            ("B", Cell.str "3:0.01;5:0.02")] cfg6.neighborCol := by
  have h := C7_neighbor_derivation cfg6 df6 df6' (by decide) (by decide) 2
    [("A", Cell.str "1:0.5"), ("B", Cell.str "3:0.01;5:0.02")] (by decide)
  exact h

/-! ### Claim C6 -/

/-- C6, counterexample: in `df6`, the configured multi-value column `"B"`
holds `"3:0.01;5:0.02"` at row 2, and the transform does replace that cell
with the parsed mapping — but row 2's `neighboring_qubits` is `[1]`, taken
from the earlier non-empty configured column `"A"`, not `[3, 5]`. -/
theorem C6_counterexample :
    modify_dataframe_data cfg6 df6 = some df6' ∧
    (∃ r, df6.rows[2]? = some r ∧ "B" ∈ cfg6.multiCols ∧
      getCell r "B" = .str "3:0.01;5:0.02") ∧
    (∃ r', df6'.rows[2]? = some r' ∧
      getCell r' "B" = .mapping [(3, ⟨1, 100⟩), (5, ⟨1, 50⟩)] ∧
      getCell r' "N" = .qubitList [1] ∧
      ¬ getCell r' "N" = .qubitList [3, 5]) :=
  ⟨by decide,
   ⟨[("A", .str "1:0.5"), ("B", .str "3:0.01;5:0.02")],
     by decide, by decide, by decide⟩,
   ⟨[("A", .mapping [(1, ⟨1, 2⟩)]),
     ("B", .mapping [(3, ⟨1, 100⟩), (5, ⟨1, 50⟩)]),
     ("N", .qubitList [1])], by decide, by decide, by decide, by decide⟩⟩

/-- C6 (amended): when a configured multi-value column `c` holds
`"3:0.01;5:0.02"` at row 2, the transform replaces that cell with the
mapping `3 ↦ 0.01, 5 ↦ 0.02` (integer neighbor keys, exact decimal
values); row 2's `neighboring_qubits` becomes `[3, 5]` provided every
configured multi-value column before `c` is absent from the table or empty
at row 2 — otherwise `neighboring_qubits` keeps the indices of that
earlier column (see the counterexample). -/
theorem C6_multi_value_cell (cfg : PipelineConfig) (df df' : DataFrame)
    (c : String) (pre post : List String)
    (hnb : cfg.neighborCol ∉ cfg.multiCols)
    (hsplit : cfg.multiCols = pre ++ c :: post)
    (hpre : c ∉ pre) (hpost : c ∉ post)
    (hcol : df.colNames.contains c = true)
    (h : modify_dataframe_data cfg df = some df')
    (r : Rowt) (hr : df.rows[2]? = some r)
    (hcell : getCell r c = .str "3:0.01;5:0.02") :
    ∃ r', df'.rows[2]? = some r' ∧
      getCell r' c = .mapping [(3, ⟨1, 100⟩), (5, ⟨1, 50⟩)] ∧
      ((∀ c' ∈ pre, df.colNames.contains c' = false ∨
          (getCell r c').isNA = true) →
        getCell r' cfg.neighborCol = .qubitList [3, 5]) := by
  have hcmem : c ∈ cfg.multiCols := by
    rw [hsplit]
    exact List.mem_append_right pre (List.mem_cons_self c post)
  have hcnb : ¬ c = cfg.neighborCol := fun hh => hnb (hh ▸ hcmem)
  have hprenb : ∀ x ∈ pre, ¬ x = cfg.neighborCol := by
    intro x hx hh
    exact hnb (hh ▸ (hsplit ▸ List.mem_append_left _ hx))
  have hpostnb : ∀ x ∈ post, ¬ x = cfg.neighborCol := by
    intro x hx hh
    refine hnb (hh ▸ (hsplit ▸ ?_))
    exact List.mem_append_right pre (List.mem_cons_of_mem c hx)
  unfold modify_dataframe_data at h
  cases hrows : modifyRows cfg df.colNames df.rows with
  | none => rw [hrows] at h; exact Option.noConfusion h
  | some rs' =>
    rw [hrows] at h
    simp only [Option.map_some', Option.some.injEq] at h
    obtain ⟨r', hr', hmr⟩ := modifyRows_get cfg df.colNames df.rows rs'
      hrows 2 r hr
    refine ⟨r', by rw [← h]; exact hr', ?_⟩
    unfold modifyRow at hmr
    cases hpc : processColumns cfg df.colNames cfg.multiCols
        ⟨r, [], false⟩ with
    | none => rw [hpc] at hmr; exact Option.noConfusion hmr
    | some st' =>
      rw [hpc] at hmr
      simp only [Option.map_some', Option.some.injEq] at hmr
      subst hmr
      rw [hsplit, processColumns_append] at hpc
      cases hpc1 : processColumns cfg df.colNames pre ⟨r, [], false⟩ with
      | none => rw [hpc1] at hpc; exact Option.noConfusion hpc
      | some st1 =>
        rw [hpc1] at hpc
        simp only [processColumns] at hpc
        cases hpc2 : processColumn cfg df.colNames st1 c with
        | none => rw [hpc2] at hpc; exact Option.noConfusion hpc
        | some st2 =>
          rw [hpc2] at hpc
          change processColumns cfg df.colNames post st2 = some st' at hpc
          have hcell1 : getCell st1.row c = .str "3:0.01;5:0.02" := by
            rw [processColumns_untouched cfg df.colNames pre _ st1 c hpre
              hcnb hpc1]
            exact hcell
          rcases processColumn_cases hpc2 with ⟨rfl, hskip⟩ |
            ⟨s, m, ts, hcont2, hcl2, hpf2, hst2⟩
          · rcases hskip with hh | hh
            · rw [hcol] at hh
              exact Bool.noConfusion hh
            · rw [hcell1] at hh
              simp [Cell.isNA] at hh
          · rw [hcell1] at hcl2
            have hs : s = "3:0.01;5:0.02" := by
              cases hcl2
              rfl
            subst hs
            rw [parseFragments_ts] at hpf2
            have hconc : parseFragments (pySplit "3:0.01;5:0.02" ';') [] []
                = some ([(3, ⟨1, 100⟩), (5, ⟨1, 50⟩)], [3, 5]) := by decide
            rw [hconc] at hpf2
            simp only [Option.map_some', Option.some.injEq, Prod.mk.injEq] at hpf2
            obtain ⟨hm, hts⟩ := hpf2
            subst hm
            constructor
            · have hcol2 : getCell st2.row c =
                  .mapping [(3, ⟨1, 100⟩), (5, ⟨1, 50⟩)] := by
                rw [hst2]
                show getCell (dset (dset st1.row c _) cfg.neighborCol _) c = _
                unfold getCell
                rw [dget_set_ne _ _ hcnb, dget_set_self]
                rfl
              rw [processColumns_untouched cfg df.colNames post st2 st' c
                hpost hcnb hpc]
              exact hcol2
            · intro hempty
              have hst1 : st1 = ⟨r, [], false⟩ := by
                have := processColumns_skip cfg df.colNames pre
                  ⟨r, [], false⟩ hempty
                rw [this] at hpc1
                cases hpc1
                rfl
              subst hst1
              have hts35 : ts = [3, 5] := by
                rw [← hts]
                rfl
              subst hts35
              have hst2' : st2 = ⟨dset (dset r c
                  (.mapping [(3, ⟨1, 100⟩), (5, ⟨1, 50⟩)])) cfg.neighborCol
                  (.qubitList [3, 5]), [3, 5], true⟩ := hst2
              subst hst2'
              have hfound := processColumns_found cfg df.colNames post _ st'
                hpostnb rfl (by unfold getCell; rw [dget_set_self]; rfl) hpc
              exact hfound.2.2

/-- C6, witness for the amended statement: the single-multi-column frame
with `"3:0.01;5:0.02"` at row 2 transforms to the expected mapping and
`neighboring_qubits == [3, 5]`. -/
theorem C6_multi_value_cell_witness :
    ∃ r', (⟨["B", "N"],
        [[], [], [("B", Cell.mapping [(3, ⟨1, 100⟩), (5, ⟨1, 50⟩)]),
          ("N", Cell.qubitList [3, 5])]]⟩ : DataFrame).rows[2]? = some r' ∧
      getCell r' "B" = .mapping [(3, ⟨1, 100⟩), (5, ⟨1, 50⟩)] ∧
      ((∀ c' ∈ ([] : List String),
          (["B", "N"] : List String).contains c' = false ∨
          (getCell [("B", Cell.str "3:0.01;5:0.02")] c').isNA = true) →
        getCell r' "N" = .qubitList [3, 5]) :=
  C6_multi_value_cell ⟨[], ["B"], "N", "RT"⟩
    ⟨["B", "N"], [[], [], [("B", .str "3:0.01;5:0.02")]]⟩
    ⟨["B", "N"], [[], [], [("B", .mapping [(3, ⟨1, 100⟩), (5, ⟨1, 50⟩)]),
      ("N", .qubitList [3, 5])]]⟩
    "B" [] [] (by decide) rfl (by decide) (by decide) (by decide)
    (by decide) [("B", .str "3:0.01;5:0.02")] (by decide) (by decide)

/-- A three-qubit noise data instance used to witness C9. -/
def wInst : NoiseDataInstance := ⟨"cal.csv", "cal.csv", ⟨[], [[], [], []]⟩⟩

/-- C9, witness: with 3 qubit rows, index 2 succeeds, index 3 fails
reporting maximum 2, and index -1 fails as negative. -/
theorem C9_qubit_bounds_witness :
    wInst.validate_qubit_number ((wInst.get_qubit_count : Int) - 1) = none ∧
    wInst.validate_qubit_number (wInst.get_qubit_count : Int) =
      some (.largeQubitNumber (wInst.get_qubit_count : Int)
        ((wInst.get_qubit_count : Int) - 1)) ∧
    wInst.validate_qubit_number (-1) = some (.negativeQubitNumber (-1)) :=
  ⟨(C9_qubit_bounds wInst (-1)).2.1 (by decide),
   (C9_qubit_bounds wInst (-1)).2.2.1,
   (C9_qubit_bounds wInst (-1)).2.2.2 (by decide)⟩

/-! ### Claims C8 and C10: `__add_thermal_error` -/

/-- Inversion of a successful `__add_thermal_error` run: all required
columns were numeric, and the attachment list is the single-qubit thermal
errors, the per-neighbor expanded errors, and the measure/reset/zero-time
attachments, with T2 clamped to `min(T2, 2*T1)` throughout. -/
lemma add_thermal_error_ok (cfg : NoiseConfig) (q : Int) (row : Rowt)
    (df : DataFrame) (l : List Attachment)
    (h : add_thermal_error cfg q row df = some l) :
    ∃ t1raw t2raw g1 readout_raw reset_raw twoq,
      rowNum? row cfg.t1Col = some t1raw ∧
      rowNum? row cfg.t2Col = some t2raw ∧
      rowNum? row cfg.gateTime1qCol = some g1 ∧
      rowNum? row cfg.readoutCol = some readout_raw ∧
      rowNum? row cfg.resetCol = some reset_raw ∧
      (twoq = [] ∨ ∃ m, thermalTargets cfg q (pfMul t1raw microFactor)
          (pfMin (pfMul t2raw microFactor)
            (pfMul (pfMul t1raw microFactor) (pfNat 2))) row df m = some twoq) ∧
      l = (cfg.singleQubitGates.filter
            (fun g => !(g.id = "rz_gate_error" : Bool) &&
              hasCol row g.csvName)).map
          (fun g => Attachment.mk (.thermal ⟨pfMul t1raw microFactor,
            pfMin (pfMul t2raw microFactor)
              (pfMul (pfMul t1raw microFactor) (pfNat 2)),
            pfMul g1 nanoFactor⟩) g.codeName [q]) ++ twoq ++
        [⟨.thermal ⟨pfMul t1raw microFactor, pfMin (pfMul t2raw microFactor)
            (pfMul (pfMul t1raw microFactor) (pfNat 2)),
            pfMul readout_raw nanoFactor⟩, "measure", [q]⟩,
         ⟨.thermal ⟨pfMul t1raw microFactor, pfMin (pfMul t2raw microFactor)
            (pfMul (pfMul t1raw microFactor) (pfNat 2)),
            pfMul reset_raw nanoFactor⟩, "reset", [q]⟩,
         ⟨.thermal ⟨pfMul t1raw microFactor, pfMin (pfMul t2raw microFactor)
            (pfMul (pfMul t1raw microFactor) (pfNat 2)), pfNat 0⟩,
          "reset", [q]⟩] := by
  simp only [add_thermal_error] at h
  split at h
  all_goals try exact Option.noConfusion h
  rename_i t1raw t2raw h1 h2
  split at h
  all_goals try exact Option.noConfusion h
  rename_i g1 h3
  split at h
  all_goals try exact Option.noConfusion h
  rename_i two_qubit h4
  split at h
  all_goals try exact Option.noConfusion h
  rename_i twoq h5
  split at h
  all_goals try exact Option.noConfusion h
  rename_i readout_raw reset_raw h6 h7
  injection h with hl
  refine ⟨t1raw, t2raw, g1, readout_raw, reset_raw, twoq,
    h1, h2, h3, h6, h7, ?_, hl.symm⟩
  split at h5
  · injection h5 with he
    exact Or.inl he.symm
  · rename_i m
    exact Or.inr ⟨m, h5⟩
  all_goals exact Option.noConfusion h5

/-- Every attachment produced by the per-neighbor loop comes from a
configured two-qubit gate and pairs the source-qubit thermal parameters
with the target qubit's parameters, the target's T2 clamped to
`min(T2, 2*T1)` of the target. -/
lemma thermalTargets_sound (cfg : NoiseConfig) (q : Int) (t1t t2t : PyFloat)
    (row : Rowt) (df : DataFrame) :
    ∀ (m : Dict Int PyFloat) (l : List Attachment),
      thermalTargets cfg q t1t t2t row df m = some l →
      ∀ a ∈ l, ∃ g, g ∈ cfg.twoQubitGates ∧ ∃ tq r t1b t2b tm,
        DataFrame.getRow? df tq = some r ∧
        rowNum? r cfg.t1Col = some t1b ∧
        rowNum? r cfg.t2Col = some t2b ∧
        a = ⟨.thermalExpand ⟨t1t, t2t, tm⟩
          ⟨pfMul t1b microFactor,
           pfMin (pfMul t2b microFactor)
             (pfMul (pfMul t1b microFactor) (pfNat 2)), tm⟩,
          g.codeName, [q, tq]⟩ := by
  intro m
  induction m with
  | nil =>
    intro l h a ha
    simp only [thermalTargets] at h
    injection h with he
    rw [← he] at ha
    exact absurd ha (List.not_mem_nil a)
  | cons p rest ih =>
    obtain ⟨tq, gtime⟩ := p
    intro l h a ha
    simp only [thermalTargets] at h
    split at h
    all_goals try exact Option.noConfusion h
    rename_i t1b t2b hb1 hb2
    split at h
    all_goals try exact Option.noConfusion h
    rename_i r2 hrest
    injection h with he
    rw [← he] at ha
    rcases List.mem_append.mp ha with hmem | hmem
    · obtain ⟨g, hg, hga⟩ := List.mem_map.mp hmem
      have hg2 : g ∈ cfg.twoQubitGates := (List.mem_filter.mp hg).1
      obtain ⟨r, hr, hrn⟩ := Option.bind_eq_some.mp hb1
      obtain ⟨r', hr2, hrn2⟩ := Option.bind_eq_some.mp hb2
      rw [hr] at hr2
      injection hr2 with hrr
      rw [← hrr] at hrn2
      exact ⟨g, hg2, tq, r, t1b, t2b, pfMul gtime nanoFactor,
        hr, hrn, hrn2, hga.symm⟩
    · exact ih r2 hrest a hmem

/-- C8: every `thermal_relaxation_error` construction in a successful
`__add_thermal_error` run (single-qubit gates, both factors of the expanded
two-qubit errors, measure, reset and the zero-time error) takes as its T2
argument `min(T2, 2*T1)` — scaled from the microsecond columns of the
respective qubit (the row's own columns, or the target qubit's row of the
dataframe for the second factor) — never the raw T2; in particular, T1 =
100µs with reported T2 = 250µs yields 200µs. -/
theorem C8_t2_clamped (cfg : NoiseConfig) (q : Int) (row : Rowt)
    (df : DataFrame) (l : List Attachment)
    (h : add_thermal_error cfg q row df = some l) :
    (∀ a ∈ l, ∀ p ∈ a.thermalCalls, ∃ t1v t2v,
      ((rowNum? row cfg.t1Col = some t1v ∧
        rowNum? row cfg.t2Col = some t2v) ∨
       (∃ tq r, DataFrame.getRow? df tq = some r ∧
         rowNum? r cfg.t1Col = some t1v ∧
         rowNum? r cfg.t2Col = some t2v)) ∧
      p.t1 = pfMul t1v microFactor ∧
      p.t2 = pfMin (pfMul t2v microFactor)
        (pfMul (pfMul t1v microFactor) (pfNat 2))) ∧
    pfMin (pfMul (pfNat 250) microFactor)
      (pfMul (pfMul (pfNat 100) microFactor) (pfNat 2)) =
      pfMul (pfNat 200) microFactor := by
  refine ⟨?_, by decide⟩
  obtain ⟨t1raw, t2raw, g1, readout_raw, reset_raw, twoq,
    h1, h2, h3, h6, h7, htwo, hl⟩ := add_thermal_error_ok cfg q row df l h
  subst hl
  intro a ha p hp
  rcases List.mem_append.mp ha with ha2 | hmem3
  · rcases List.mem_append.mp ha2 with hmem1 | hmem2
    · obtain ⟨g, hg, hga⟩ := List.mem_map.mp hmem1
      rw [← hga] at hp
      simp only [Attachment.thermalCalls, List.mem_singleton] at hp
      subst hp
      exact ⟨t1raw, t2raw, Or.inl ⟨h1, h2⟩, rfl, rfl⟩
    · rcases htwo with rfl | ⟨m, hm⟩
      · exact absurd hmem2 (List.not_mem_nil a)
      · obtain ⟨g, _hg, tq, r, t1b, t2b, tm, hr, hrn, hrn2, hae⟩ :=
          thermalTargets_sound cfg q _ _ row df m twoq hm a hmem2
        rw [hae] at hp
        simp only [Attachment.thermalCalls, List.mem_cons,
          List.not_mem_nil, or_false] at hp
        rcases hp with rfl | rfl
        · exact ⟨t1raw, t2raw, Or.inl ⟨h1, h2⟩, rfl, rfl⟩
        · exact ⟨t1b, t2b, Or.inr ⟨tq, r, hr, hrn, hrn2⟩, rfl, rfl⟩
  · simp only [List.mem_cons, List.not_mem_nil, or_false] at hmem3
    rcases hmem3 with rfl | rfl | rfl <;>
      (simp only [Attachment.thermalCalls, List.mem_singleton] at hp
       subst hp
       exact ⟨t1raw, t2raw, Or.inl ⟨h1, h2⟩, rfl, rfl⟩)

/-- A calibration row with T1 = 100µs, T2 = 250µs, a 35ns single-qubit gate
time, no two-qubit mapping, 4000ns readout and 1300ns reset times. -/
def row8 : Rowt :=
  [("T1", .num (pfNat 100)), ("T2", .num (pfNat 250)),
   ("G1", .num (pfNat 35)), ("G2", .na), ("RO", .num (pfNat 4000)),
   ("reset_time", .num (pfNat 1300))]

/-- An empty dataframe standing for the (unused) neighbor lookup table. -/
def dfN8 : DataFrame := ⟨[], []⟩

/-- The attachments `__add_thermal_error` produces for `row8` at qubit 0:
all three thermal errors carry T2 = 1/5000 s = 200µs, the clamp of the raw
250µs against 2·100µs. -/
def l8 : List Attachment :=
  [⟨.thermal ⟨⟨1, 10000⟩, ⟨1, 5000⟩, ⟨1, 250000⟩⟩, "measure", [0]⟩,
   ⟨.thermal ⟨⟨1, 10000⟩, ⟨1, 5000⟩, ⟨13, 10000000⟩⟩, "reset", [0]⟩,
   ⟨.thermal ⟨⟨1, 10000⟩, ⟨1, 5000⟩, ⟨0, 1⟩⟩, "reset", [0]⟩]

/-- C8, witness: the clamp on `row8` (T1 = 100µs, reported T2 = 250µs)
produces 200µs in every constructed thermal error. -/
theorem C8_t2_clamped_witness :
    (∀ a ∈ l8, ∀ p ∈ a.thermalCalls, ∃ t1v t2v,
      ((rowNum? row8 cfgN0.t1Col = some t1v ∧
        rowNum? row8 cfgN0.t2Col = some t2v) ∨
       (∃ tq r, DataFrame.getRow? dfN8 tq = some r ∧
         rowNum? r cfgN0.t1Col = some t1v ∧
         rowNum? r cfgN0.t2Col = some t2v)) ∧
      p.t1 = pfMul t1v microFactor ∧
      p.t2 = pfMin (pfMul t2v microFactor)
        (pfMul (pfMul t1v microFactor) (pfNat 2))) ∧
    pfMin (pfMul (pfNat 250) microFactor)
      (pfMul (pfMul (pfNat 100) microFactor) (pfNat 2)) =
      pfMul (pfNat 200) microFactor :=
  C8_t2_clamped cfgN0 0 row8 dfN8 l8 (by decide)

/-- C10: for any configuration in which `"reset"` is not a configured gate
code name, `"rz"` only names the RZ gate (whose configuration id is
`"rz_gate_error"`, as in the shipped configuration) and no two-qubit gate
is called `"rz"`: a successful `__add_thermal_error` run attaches no error
under the instruction name `"rz"`, and the attachments under `"reset"` are
exactly two thermal errors on the qubit — the reset-time one and the
zero-duration one intended for the RZ gate. -/
theorem C10_rz_attached_as_reset (cfg : NoiseConfig) (q : Int) (row : Rowt)
    (df : DataFrame) (l : List Attachment)
    (h : add_thermal_error cfg q row df = some l)
    (h1 : ∀ g ∈ cfg.singleQubitGates, g.codeName = "rz" →
      g.id = "rz_gate_error")
    (h2 : ∀ g ∈ cfg.twoQubitGates, ¬ g.codeName = "rz")
    (h3 : ∀ g ∈ cfg.singleQubitGates, ¬ g.codeName = "reset")
    (h4 : ∀ g ∈ cfg.twoQubitGates, ¬ g.codeName = "reset") :
    (∀ a ∈ l, ¬ a.instructions = "rz") ∧
    ∃ t1t t2t rt, l.filter (fun a => a.instructions == "reset") =
      [⟨.thermal ⟨t1t, t2t, pfMul rt nanoFactor⟩, "reset", [q]⟩,
       ⟨.thermal ⟨t1t, t2t, pfNat 0⟩, "reset", [q]⟩] := by
  obtain ⟨t1raw, t2raw, g1, readout_raw, reset_raw, twoq,
    _h1, _h2, _h3, _h6, _h7, htwo, hl⟩ := add_thermal_error_ok cfg q row df l h
  have htwoq : ∀ a ∈ twoq, ∃ g, g ∈ cfg.twoQubitGates ∧
      a.instructions = g.codeName := by
    rcases htwo with rfl | ⟨m, hm⟩
    · intro a ha
      exact absurd ha (List.not_mem_nil a)
    · intro a ha
      obtain ⟨g, hg, _tq, _r, _t1b, _t2b, _tm, _hr, _hrn, _hrn2, hae⟩ :=
        thermalTargets_sound cfg q _ _ row df m twoq hm a ha
      exact ⟨g, hg, by rw [hae]⟩
  subst hl
  constructor
  · intro a ha hrz
    rcases List.mem_append.mp ha with ha2 | hmem3
    · rcases List.mem_append.mp ha2 with hmem1 | hmem2
      · obtain ⟨g, hg, hga⟩ := List.mem_map.mp hmem1
        have hgid : ¬ g.id = "rz_gate_error" := by
          have hfil := (List.mem_filter.mp hg).2
          simp only [Bool.and_eq_true, Bool.not_eq_true',
            decide_eq_false_iff_not] at hfil
          exact hfil.1
        rw [← hga] at hrz
        exact hgid (h1 g (List.mem_filter.mp hg).1 hrz)
      · obtain ⟨g, hg, hgi⟩ := htwoq a hmem2
        rw [hgi] at hrz
        exact h2 g hg hrz
    · simp only [List.mem_cons, List.not_mem_nil, or_false] at hmem3
      rcases hmem3 with rfl | rfl | rfl <;> simp at hrz
  · refine ⟨pfMul t1raw microFactor,
      pfMin (pfMul t2raw microFactor)
        (pfMul (pfMul t1raw microFactor) (pfNat 2)), reset_raw, ?_⟩
    have hsing : ((cfg.singleQubitGates.filter
          (fun g => !(g.id = "rz_gate_error" : Bool) &&
            hasCol row g.csvName)).map
          (fun g => Attachment.mk (.thermal ⟨pfMul t1raw microFactor,
            pfMin (pfMul t2raw microFactor)
              (pfMul (pfMul t1raw microFactor) (pfNat 2)),
            pfMul g1 nanoFactor⟩) g.codeName [q])).filter
            (fun a => a.instructions == "reset") = [] := by
      rw [List.filter_eq_nil_iff]
      intro a hmem hbeq
      obtain ⟨g, hg, hga⟩ := List.mem_map.mp hmem
      have heq : a.instructions = "reset" := eq_of_beq hbeq
      rw [← hga] at heq
      exact h3 g (List.mem_filter.mp hg).1 heq
    have htwoqf : twoq.filter (fun a => a.instructions == "reset") = [] := by
      rw [List.filter_eq_nil_iff]
      intro a hmem hbeq
      obtain ⟨g, hg, hgi⟩ := htwoq a hmem
      have heq : a.instructions = "reset" := eq_of_beq hbeq
      rw [hgi] at heq
      exact h4 g hg heq
    rw [List.filter_append, List.filter_append, hsing, htwoqf]
    rfl

/-- C10, witness: on `row8` at qubit 0 the resulting attachments have no
`"rz"` entry and exactly the two `"reset"` thermal errors, the second with
zero duration. -/
theorem C10_rz_attached_as_reset_witness :
    (∀ a ∈ l8, ¬ a.instructions = "rz") ∧
    ∃ t1t t2t rt, l8.filter (fun a => a.instructions == "reset") =
      [⟨.thermal ⟨t1t, t2t, pfMul rt nanoFactor⟩, "reset", [0]⟩,
       ⟨.thermal ⟨t1t, t2t, pfNat 0⟩, "reset", [0]⟩] :=
  C10_rz_attached_as_reset cfgN0 0 row8 dfN8 l8 (by decide) (by decide)
    (by decide) (by decide) (by decide)

end INS

